import Mathlib

/-!
# Verification of `Source/SceneManager.cpp`

A shallow embedding of the scene manager: the texture registry
(`CreateGLTexture`, `BindGLTextures`, `FindTextureID`, `FindTextureSlot`), the
material registry (`DefineObjectMaterials`, `FindMaterial`,
`SetShaderMaterial`), the transform builder (`SetTransformations`), the light
configurator (`SetupSceneLights`) and the two scene routines (`PrepareScene`,
`RenderScene`).

Conventions of the embedding.

* `float` values are elements of a field `F`.  They are only stored, copied and,
  in `SetTransformations`, multiplied and added; the trigonometric functions are
  parameters (`FloatMath`).  Instantiating `F` with the rationals gives an
  executable model.
* A dereference of a null `m_pShaderManager` and a store past the end of the
  `m_textureIDs` array are undefined behaviour; the operations that can run
  into one return `Option`, with `none` for the undefined case.
* The collaborators that are not part of the file (image decoder, OpenGL
  texture names, shader uniforms, mesh provider) are modelled by the state they
  expose to the scene manager: the decoder and the name generator are functions
  in `Env`, the uniforms are a map from names to values, and the mesh
  provider is a log of its calls.
-/

set_option autoImplicit false

/-! ## Values -/

/-- Two-component vector, `glm::vec2`. -/
structure Vec2 (F : Type) where
  x : F
  y : F

/-- Three-component vector, `glm::vec3`. -/
structure Vec3 (F : Type) where
  x : F
  y : F
  z : F

/-- Four-component vector, `glm::vec4`, with the colour names of its fields. -/
structure Vec4 (F : Type) where
  r : F
  g : F
  b : F
  a : F

/-- Four by four matrix, `glm::mat4`; entry `M i j` is row `i`, column `j`. -/
abbrev Mat4 (F : Type) := Matrix (Fin 4) (Fin 4) F

/-- Value held by a shader uniform, tagged by the setter that wrote it. -/
inductive UniformValue (F : Type) where
  | boolV (b : Bool)
  | intV (i : Int)
  | floatV (x : F)
  | vec2V (v : Vec2 F)
  | vec3V (v : Vec3 F)
  | vec4V (v : Vec4 F)
  | mat4V (m : Mat4 F)
  | sampler2DV (slot : Int)

/-- Uniform state of the shader program: the value last written under each name. -/
abbrev Uniforms (F : Type) := String → Option (UniformValue F)

namespace ShaderManager

variable {F : Type}

/-- Immediate write of one named uniform; every other name keeps its value. -/
def setValue (u : Uniforms F) (name : String) (v : UniformValue F) : Uniforms F :=
  fun n => if n = name then some v else u n

/-- The call `setBoolValue(name, value)`. -/
def setBoolValue (u : Uniforms F) (name : String) (value : Bool) : Uniforms F :=
  setValue u name (.boolV value)

/-- The call `setIntValue(name, value)`. -/
def setIntValue (u : Uniforms F) (name : String) (value : Int) : Uniforms F :=
  setValue u name (.intV value)

/-- The call `setFloatValue(name, value)`. -/
def setFloatValue (u : Uniforms F) (name : String) (value : F) : Uniforms F :=
  setValue u name (.floatV value)

/-- The call `setVec2Value(name, value)`. -/
def setVec2Value (u : Uniforms F) (name : String) (value : Vec2 F) : Uniforms F :=
  setValue u name (.vec2V value)

/-- The call `setVec3Value(name, value)`. -/
def setVec3Value (u : Uniforms F) (name : String) (value : Vec3 F) : Uniforms F :=
  setValue u name (.vec3V value)

/-- The call `setVec3Value(name, x, y, z)`. -/
def setVec3Value3 (u : Uniforms F) (name : String) (x y z : F) : Uniforms F :=
  setValue u name (.vec3V ⟨x, y, z⟩)

/-- The call `setVec4Value(name, value)`. -/
def setVec4Value (u : Uniforms F) (name : String) (value : Vec4 F) : Uniforms F :=
  setValue u name (.vec4V value)

/-- The call `setMat4Value(name, value)`. -/
def setMat4Value (u : Uniforms F) (name : String) (value : Mat4 F) : Uniforms F :=
  setValue u name (.mat4V value)

/-- The call `setSampler2DValue(name, slot)`. -/
def setSampler2DValue (u : Uniforms F) (name : String) (slot : Int) : Uniforms F :=
  setValue u name (.sampler2DV slot)

end ShaderManager

/-! ## Global names (lines 20-27) -/

def g_ModelName : String := "model"
def g_ColorValueName : String := "objectColor"
def g_TextureValueName : String := "objectTexture"
def g_UseTextureName : String := "bUseTexture"
def g_UseLightingName : String := "bUseLighting"

/-! ## Data model -/

/-- Entry of the texture table, with the two members the source file uses: the
tag and the OpenGL texture name (a `GLuint`). -/
structure TEXTURE_INFO where
  tag : String
  ID : Nat
deriving DecidableEq

/-- Reflectance parameters stored under a tag, with the six members the source
file uses. -/
structure OBJECT_MATERIAL (F : Type) where
  ambientColor : Vec3 F
  ambientStrength : F
  diffuseColor : Vec3 F
  specularColor : Vec3 F
  shininess : F
  tag : String

/-- The primitive shapes of the mesh provider that the scene uses. -/
inductive MeshType where
  | plane
  | box
  | sphere
  | cylinder
  | cone
deriving DecidableEq

/-- The mesh provider `ShapeMeshes`, as the sequence of its load calls. -/
structure ShapeMeshes where
  loadCalls : List MeshType

/-- Result of `stbi_load` when the file decodes: dimensions and channel count. -/
structure Image where
  width : Int
  height : Int
  colorChannels : Int
deriving DecidableEq

/-- The part of the OpenGL context the scene manager acts on. -/
structure GLContext (F : Type) where
  /-- number of `glGenTextures(1, _)` calls made so far -/
  genCalls : Nat
  /-- unit selected by the last `glActiveTexture(GL_TEXTURE0 + i)` -/
  activeTexture : Nat
  /-- texture name bound to `GL_TEXTURE_2D` on each unit, `0` for none -/
  boundTexture2D : Nat → Nat
  /-- draw calls issued so far, each with the uniform state it was issued under -/
  drawCalls : List (MeshType × Option (Uniforms F))

/-- What the outside world answers: the decoder and the texture-name generator. -/
structure Env where
  /-- outcome of decoding the file, `none` when `stbi_load` returns null -/
  stbi_load : String → Option Image
  /-- name stored by the `k`-th call of `glGenTextures(1, _)`, counted from 0 -/
  glGenTextures : Nat → Nat

/-- The members of `SceneManager` together with the OpenGL context.  The table
`m_textureIDs` is a fixed array, its length is the capacity; `h_loaded` records
that the counter never exceeds it. -/
structure SceneManager (F : Type) where
  m_pShaderManager : Option (Uniforms F)
  m_basicMeshes : ShapeMeshes
  m_textureIDs : List TEXTURE_INFO
  m_loadedTextures : Nat
  m_objectMaterials : List (OBJECT_MATERIAL F)
  gl : GLContext F
  h_loaded : m_loadedTextures ≤ m_textureIDs.length

/-- Conversion of a `GLuint` to `int` (32 bit two's complement). -/
def toInt32 (n : Nat) : Int :=
  if n % 2 ^ 32 < 2 ^ 31 then (n % 2 ^ 32 : Nat) else (n % 2 ^ 32 : Nat) - 2 ^ 32

/-- The functions of the C math library that the transform builder reaches
through glm: conversion of degrees to radians, cosine and sine. -/
structure FloatMath (F : Type) where
  radians : F → F
  cos : F → F
  sin : F → F

namespace glm

variable {F : Type} [Field F]

/-- `glm::scale(v)`: the diagonal matrix of the three factors. -/
def scale (v : Vec3 F) : Mat4 F :=
  !![v.x, 0, 0, 0;
     0, v.y, 0, 0;
     0, 0, v.z, 0;
     0, 0, 0, 1]

/-- `glm::translate(v)`: the unit matrix with `v` in the last column. -/
def translate (v : Vec3 F) : Mat4 F :=
  !![1, 0, 0, v.x;
     0, 1, 0, v.y;
     0, 0, 1, v.z;
     0, 0, 0, 1]

/-- `glm::rotate(angle, axis)` as glm computes it from `c = cos angle`,
`s = sin angle` and `temp = (1 - c) * axis`.  glm normalises the axis first; the
three call sites pass a unit axis, which normalisation leaves as it is, so the
axis is taken as given. -/
def rotate (M : FloatMath F) (angle : F) (axis : Vec3 F) : Mat4 F :=
  let c := M.cos angle
  let s := M.sin angle
  let temp : Vec3 F := ⟨(1 - c) * axis.x, (1 - c) * axis.y, (1 - c) * axis.z⟩
  !![c + temp.x * axis.x, temp.y * axis.x - s * axis.z, temp.z * axis.x + s * axis.y, 0;
     temp.x * axis.y + s * axis.z, c + temp.y * axis.y, temp.z * axis.y - s * axis.x, 0;
     temp.x * axis.z - s * axis.y, temp.y * axis.z + s * axis.x, c + temp.z * axis.z, 0;
     0, 0, 0, 1]

end glm

namespace SceneManager

variable {F : Type}

/-- The entries in use: the first `m_loadedTextures` cells of the table. -/
def registered (s : SceneManager F) : List TEXTURE_INFO :=
  s.m_textureIDs.take s.m_loadedTextures

/-- Modelled from the spec: the members that the constructor (lines 34-38) does
not assign.  They get their start values from the class declaration, which is
not part of the source file: the texture table, whose capacity is a parameter
here (the spec speaks of at most 16 slots), and the counter, which starts at 0
because the spec makes the slot the 0-based registration index.  The two
assignments of the constructor itself are as in the source. -/
def new (pShaderManager : Option (Uniforms F)) (capacity : Nat) : SceneManager F where
  m_pShaderManager := pShaderManager
  m_basicMeshes := ⟨[]⟩
  m_textureIDs := List.replicate capacity ⟨"", 0⟩
  m_loadedTextures := 0
  m_objectMaterials := []
  gl := ⟨0, 0, fun _ => 0, []⟩
  h_loaded := Nat.zero_le _

/-- The call `glBindTexture(GL_TEXTURE_2D, name)`: binds on the active unit. -/
def glBindTexture (g : GLContext F) (name : Nat) : GLContext F :=
  { g with boundTexture2D := fun unit => if unit = g.activeTexture then name else g.boundTexture2D unit }

/-- The call `glActiveTexture(GL_TEXTURE0 + i)`. -/
def glActiveTexture (g : GLContext F) (i : Nat) : GLContext F :=
  { g with activeTexture := i }

/-- `CreateGLTexture` (lines 60-124).  The result is `none` when the store at
lines 113-114 falls outside the table.  The texture parameters, the pixel
upload (the same call for 3 and for 4 channels, with another format) and the
mipmaps act on the content of the texture object, which is not tracked. -/
def CreateGLTexture (env : Env) (filename : String) (tag : String) (s : SceneManager F) :
    Option (Bool × SceneManager F) :=
  match env.stbi_load filename with
  | none => some (false, s)
  | some image =>
    let textureID := env.glGenTextures s.gl.genCalls % 2 ^ 32
    let g1 : GLContext F := glBindTexture { s.gl with genCalls := s.gl.genCalls + 1 } textureID
    if image.colorChannels = 3 ∨ image.colorChannels = 4 then
      let g2 := glBindTexture g1 0
      if h : s.m_loadedTextures < s.m_textureIDs.length then
        some (true,
          { s with
            gl := g2
            m_textureIDs := s.m_textureIDs.set s.m_loadedTextures ⟨tag, textureID⟩
            m_loadedTextures := s.m_loadedTextures + 1
            h_loaded := by simpa using h })
      else none
    else some (false, { s with gl := g1 })

/-- The loop of `BindGLTextures`, over the cells `i, i+1, ...` of the table in use. -/
def bindLoop : List TEXTURE_INFO → Nat → GLContext F → GLContext F
  | [], _, g => g
  | e :: es, i, g => bindLoop es (i + 1) (glBindTexture (glActiveTexture g i) e.ID)

/-- `BindGLTextures` (lines 132-140). -/
def BindGLTextures (s : SceneManager F) : SceneManager F :=
  { s with gl := bindLoop s.registered 0 s.gl }

/-- The loop of `FindTextureID`: `index` is the position of the first cell of
the list; the loop stops at the first cell whose tag compares equal. -/
def findIDLoop (tag : String) : List TEXTURE_INFO → Nat → Int
  | [], _ => -1
  | e :: es, index => if e.tag = tag then toInt32 e.ID else findIDLoop tag es (index + 1)

/-- `FindTextureID` (lines 162-180). -/
def FindTextureID (s : SceneManager F) (tag : String) : Int :=
  findIDLoop tag s.registered 0

/-- The loop of `FindTextureSlot`: `index` is the position of the first cell of
the list; the loop stops at the first cell whose tag compares equal. -/
def findSlotLoop (tag : String) : List TEXTURE_INFO → Nat → Int
  | [], _ => -1
  | e :: es, index => if e.tag = tag then (index : Int) else findSlotLoop tag es (index + 1)

/-- `FindTextureSlot` (lines 188-206). -/
def FindTextureSlot (s : SceneManager F) (tag : String) : Int :=
  findSlotLoop tag s.registered 0

/-! ### Material registry -/

/-- The five assignments of lines 228-232: every field but the tag is copied
from the stored material into the caller's. -/
def copyMaterialFields (stored material : OBJECT_MATERIAL F) : OBJECT_MATERIAL F :=
  { material with
    ambientColor := stored.ambientColor
    ambientStrength := stored.ambientStrength
    diffuseColor := stored.diffuseColor
    specularColor := stored.specularColor
    shininess := stored.shininess }

/-- The loop of `FindMaterial` (lines 223-238) over the stored materials from
`index` on: it stops at the first one whose tag compares equal. -/
def findMaterialLoop (tag : String) :
    List (OBJECT_MATERIAL F) → OBJECT_MATERIAL F → OBJECT_MATERIAL F
  | [], material => material
  | m :: ms, material =>
    if m.tag = tag then copyMaterialFields m material else findMaterialLoop tag ms material

/-- `FindMaterial` (lines 214-241): the returned flag and the caller's
material after the call. -/
def FindMaterial (s : SceneManager F) (tag : String) (material : OBJECT_MATERIAL F) :
    Bool × OBJECT_MATERIAL F :=
  if s.m_objectMaterials.length = 0 then (false, material)
  else (true, findMaterialLoop tag s.m_objectMaterials material)

/-- The statement `m_objectMaterials.push_back(m)` (line 390). -/
def pushMaterial (m : OBJECT_MATERIAL F) (s : SceneManager F) : SceneManager F :=
  { s with m_objectMaterials := s.m_objectMaterials ++ [m] }

/-! ### Shader setters -/

/-- `SetShaderColor` (lines 287-306). -/
def SetShaderColor (redColorValue greenColorValue blueColorValue alphaValue : F)
    (s : SceneManager F) : SceneManager F :=
  let currentColor : Vec4 F := ⟨redColorValue, greenColorValue, blueColorValue, alphaValue⟩
  match s.m_pShaderManager with
  | none => s
  | some u =>
    let u1 := ShaderManager.setIntValue u g_UseTextureName 0
    { s with m_pShaderManager := some (ShaderManager.setVec4Value u1 g_ColorValueName currentColor) }

/-- `SetShaderTexture` (lines 314-325). -/
def SetShaderTexture (textureTag : String) (s : SceneManager F) : SceneManager F :=
  match s.m_pShaderManager with
  | none => s
  | some u =>
    let u1 := ShaderManager.setIntValue u g_UseTextureName 1
    let textureID := s.FindTextureSlot textureTag
    { s with m_pShaderManager := some (ShaderManager.setSampler2DValue u1 g_TextureValueName textureID) }

/-- `SetTextureUVScale` (lines 333-339). -/
def SetTextureUVScale (u v : F) (s : SceneManager F) : SceneManager F :=
  match s.m_pShaderManager with
  | none => s
  | some us => { s with m_pShaderManager := some (ShaderManager.setVec2Value us "UVscale" ⟨u, v⟩) }

/-- `SetShaderMaterial` (lines 347-365).  `material0` is the content of the
local `material` before `FindMaterial` runs; the shader pointer is dereferenced
without a null test, so a null pointer gives `none`. -/
def SetShaderMaterial (material0 : OBJECT_MATERIAL F) (materialTag : String)
    (s : SceneManager F) : Option (SceneManager F) :=
  if s.m_objectMaterials.length > 0 then
    let r := s.FindMaterial materialTag material0
    let material := r.2
    if r.1 = true then
      match s.m_pShaderManager with
      | none => none
      | some u =>
        let u1 := ShaderManager.setVec3Value u "material.ambientColor" material.ambientColor
        let u2 := ShaderManager.setFloatValue u1 "material.ambientStrength" material.ambientStrength
        let u3 := ShaderManager.setVec3Value u2 "material.diffuseColor" material.diffuseColor
        let u4 := ShaderManager.setVec3Value u3 "material.specularColor" material.specularColor
        let u5 := ShaderManager.setFloatValue u4 "material.shininess" material.shininess
        some { s with m_pShaderManager := some u5 }
    else some s
  else some s

/-! ### Mesh provider -/

/-- A call of `m_basicMeshes->LoadXMesh()`. -/
def LoadMesh (m : MeshType) (s : SceneManager F) : SceneManager F :=
  { s with m_basicMeshes := ⟨s.m_basicMeshes.loadCalls ++ [m]⟩ }

/-- A call of `m_basicMeshes->DrawXMesh()`: the draw is issued under the
uniform state of that moment. -/
def DrawMesh (m : MeshType) (s : SceneManager F) : SceneManager F :=
  { s with gl := { s.gl with drawCalls := s.gl.drawCalls ++ [(m, s.m_pShaderManager)] } }

/-! ### Transform builder -/

section Scene

variable [Field F]

/-- The matrix `modelView` of `SetTransformations` (lines 264-273). -/
def modelView (M : FloatMath F) (scaleXYZ : Vec3 F)
    (XrotationDegrees YrotationDegrees ZrotationDegrees : F) (positionXYZ : Vec3 F) : Mat4 F :=
  let scale := glm.scale scaleXYZ
  let rotationX := glm.rotate M (M.radians XrotationDegrees) ⟨1, 0, 0⟩
  let rotationY := glm.rotate M (M.radians YrotationDegrees) ⟨0, 1, 0⟩
  let rotationZ := glm.rotate M (M.radians ZrotationDegrees) ⟨0, 0, 1⟩
  let translation := glm.translate positionXYZ
  translation * rotationX * rotationY * rotationZ * scale

/-- `SetTransformations` (lines 249-279). -/
def SetTransformations (M : FloatMath F) (scaleXYZ : Vec3 F)
    (XrotationDegrees YrotationDegrees ZrotationDegrees : F) (positionXYZ : Vec3 F)
    (s : SceneManager F) : SceneManager F :=
  let mv := modelView M scaleXYZ XrotationDegrees YrotationDegrees ZrotationDegrees positionXYZ
  match s.m_pShaderManager with
  | none => s
  | some u => { s with m_pShaderManager := some (ShaderManager.setMat4Value u g_ModelName mv) }

/-! ### Materials and lights of the scene -/

/-- The material built at lines 383-389. -/
def lampShadeMaterial : OBJECT_MATERIAL F where
  ambientColor := ⟨0.6, 0.6, 0.4⟩
  ambientStrength := 0.4
  diffuseColor := ⟨0.9, 0.9, 0.7⟩
  specularColor := ⟨1.0, 1.0, 0.9⟩
  shininess := 40.0
  tag := "lampShade"

/-- `DefineObjectMaterials` (lines 380-391). -/
def DefineObjectMaterials (s : SceneManager F) : SceneManager F :=
  pushMaterial lampShadeMaterial s

/-- Body of the loop at lines 420-428 for one value of `i`. -/
def zeroLightSource (u : Uniforms F) (i : Nat) : Uniforms F :=
  let base := "lightSources[" ++ toString i ++ "]"
  let u1 := ShaderManager.setVec3Value3 u (base ++ ".position") 0.0 7.0 (-7.0)
  let u2 := ShaderManager.setVec3Value3 u1 (base ++ ".ambientColor") 0.0 0.0 0.0
  let u3 := ShaderManager.setVec3Value3 u2 (base ++ ".diffuseColor") 0.0 0.0 0.0
  let u4 := ShaderManager.setVec3Value3 u3 (base ++ ".specularColor") 0.0 0.0 0.0
  let u5 := ShaderManager.setFloatValue u4 (base ++ ".focalStrength") 0.0
  ShaderManager.setFloatValue u5 (base ++ ".specularIntensity") 0.0

/-- The writes of `SetupSceneLights` (lines 403-431) on the uniform state. -/
def sceneLights (u : Uniforms F) : Uniforms F :=
  let a1 := ShaderManager.setVec3Value3 u "lightSources[0].position" 0.0 10.0 (-10.0)
  let a2 := ShaderManager.setVec3Value3 a1 "lightSources[0].ambientColor" (-1.05) (-1.05) (-1.02)
  let a3 := ShaderManager.setVec3Value3 a2 "lightSources[0].diffuseColor" 0.25 0.25 0.12
  let a4 := ShaderManager.setVec3Value3 a3 "lightSources[0].specularColor" 0.9 0.9 0.8
  let a5 := ShaderManager.setFloatValue a4 "lightSources[0].focalStrength" 25.0
  let a6 := ShaderManager.setFloatValue a5 "lightSources[0].specularIntensity" 3.0
  let b1 := ShaderManager.setVec3Value3 a6 "lightSources[1].position" 0.0 5.0 (-10.0)
  let b2 := ShaderManager.setVec3Value3 b1 "lightSources[1].ambientColor" 0.02 0.02 0.08
  let b3 := ShaderManager.setVec3Value3 b2 "lightSources[1].diffuseColor" 0.2 0.2 0.9
  let b4 := ShaderManager.setVec3Value3 b3 "lightSources[1].specularColor" 0.6 0.6 1.0
  let b5 := ShaderManager.setFloatValue b4 "lightSources[1].focalStrength" 15.0
  let b6 := ShaderManager.setFloatValue b5 "lightSources[1].specularIntensity" 2.5
  -- for (int i = 2; i < 4; ++i)
  let c := List.foldl zeroLightSource b6 [2, 3]
  ShaderManager.setBoolValue c g_UseLightingName true

/-- `SetupSceneLights` (lines 400-432).  The shader pointer is dereferenced
without a null test, so a null pointer gives `none`. -/
def SetupSceneLights (s : SceneManager F) : Option (SceneManager F) :=
  match s.m_pShaderManager with
  | none => none
  | some u => some { s with m_pShaderManager := some (sceneLights u) }

/-! ### The scene -/

/-- `PrepareScene` (lines 441-471).  The results of `CreateGLTexture` are not
looked at. -/
def PrepareScene (env : Env) (s : SceneManager F) : Option (SceneManager F) := do
  let s := DefineObjectMaterials s
  let s ← SetupSceneLights s
  let s := LoadMesh .plane s
  let (_, s) ← CreateGLTexture env "Green_Mouse_Texture.jpg" "mouse" s
  let s := BindGLTextures s
  let s := LoadMesh .plane s
  let (_, s) ← CreateGLTexture env "Green_Mouse_Texture.jpg" "mouse" s
  let (_, s) ← CreateGLTexture env "metal_Texture.jpg" "lamp" s
  let (_, s) ← CreateGLTexture env "wood.jpg" "desk" s
  return BindGLTextures s

/-- Lines 493-516 of `RenderScene`: the desk plane. -/
def renderDesk (M : FloatMath F) (s : SceneManager F) : SceneManager F :=
  let s := SetTransformations M ⟨16.0, 5.0, 7.0⟩ 0.0 0.0 0.0 ⟨0.0, 0.0, 0.0⟩ s
  let s := SetShaderColor 1 1 1 1 s
  let s := SetShaderTexture "desk" s
  DrawMesh .plane s

/-- Lines 518-564 of `RenderScene`: the five boxes of the laptop. -/
def renderLaptop (M : FloatMath F) (s : SceneManager F) : SceneManager F :=
  let s := LoadMesh .box s
  -- base
  let s := SetTransformations M ⟨9.0, 0.4, 6.0⟩ 0.0 0.0 0.0 ⟨0.0, 0.2, 0.0⟩ s
  let s := SetShaderColor 0.2 0.3 0.2 1.0 s
  let s := DrawMesh .box s
  -- screen
  let s := SetTransformations M ⟨9.0, 6.0, 0.2⟩ (-15.0) 0.0 0.0 ⟨0.0, 3.2, -2.6⟩ s
  let s := SetShaderColor 0.0 0.0 0.0 1.0 s
  let s := DrawMesh .box s
  -- screen display
  let s := SetTransformations M ⟨8.4, 5.4, 0.1⟩ (-15.0) 0.0 0.0 ⟨0.0, 3.2, -2.64⟩ s
  let s := SetShaderColor 0.1 0.3 0.8 1.0 s
  let s := DrawMesh .box s
  -- touchpad
  let s := SetTransformations M ⟨1.6, 0.1, 1.2⟩ 0.0 0.0 0.0 ⟨0.0, 0.44, 1.6⟩ s
  let s := SetShaderColor 0.3 0.3 0.3 1.0 s
  let s := DrawMesh .box s
  -- keyboard
  let s := SetTransformations M ⟨7.0, 0.1, 2.4⟩ 0.0 0.0 0.0 ⟨0.0, 0.44, -1.0⟩ s
  let s := SetShaderColor 0.1 0.1 0.1 1.0 s
  DrawMesh .box s

/-- Lines 567-580 of `RenderScene`: the mouse. -/
def renderMouse (M : FloatMath F) (s : SceneManager F) : SceneManager F :=
  let s := LoadMesh .sphere s
  let s := SetTransformations M ⟨1.2, 0.6, 2.0⟩ 0.0 0.0 0.0 ⟨7.0, 0.35, 2.0⟩ s
  let s := SetShaderTexture "mouse" s
  DrawMesh .sphere s

/-- Lines 582-617 of `RenderScene`: the lamp.  `material0` is the content of
the local `material` of `SetShaderMaterial` before it is filled. -/
def renderLamp (M : FloatMath F) (material0 : OBJECT_MATERIAL F) (s : SceneManager F) :
    Option (SceneManager F) := do
  let s := LoadMesh .cylinder s
  let s := LoadMesh .cone s
  -- base
  let s := SetTransformations M ⟨2.0, 0.2, 2.0⟩ 0.0 0.0 0.0 ⟨-12.0, 0.1, 0.0⟩ s
  let s := SetShaderColor 0.25 0.25 0.25 1.0 s
  let s := DrawMesh .cylinder s
  -- stand
  let s := SetTransformations M ⟨0.25, 6.0, 0.25⟩ 0.0 0.0 0.0 ⟨-12.0, 0.7, 0.0⟩ s
  let s := SetShaderColor 0.30 0.30 0.30 1.0 s
  let s := SetShaderTexture "lamp" s
  let s := DrawMesh .cylinder s
  -- shade
  let s := SetTransformations M ⟨2.0, 1.5, 3.0⟩ 10.0 0.0 125.0 ⟨-12.0, 7.9, 0.0⟩ s
  let s := SetShaderColor 0.85 0.85 0.7 1.0 s
  let s ← SetShaderMaterial material0 "lampShade" s
  let s := DrawMesh .cone s
  let s := DrawMesh .cone s
  return DrawMesh .sphere s

/-- Lines 621-638 of `RenderScene`: the two books. -/
def renderBooks (M : FloatMath F) (s : SceneManager F) : SceneManager F :=
  let s := LoadMesh .box s
  let s := SetTransformations M ⟨3.5, 0.6, 2.5⟩ 0.0 5.0 0.0 ⟨8.0, 0.3, -3.2⟩ s
  let s := SetShaderColor 0.0 0.5 0.0 1.0 s
  let s := DrawMesh .box s
  let s := SetTransformations M ⟨3.5, 0.6, 2.5⟩ 0.0 (-5.0) 0.0 ⟨8.0, 0.9, -3.2⟩ s
  let s := SetShaderColor 0.1 0.1 0.6 1.0 s
  DrawMesh .box s

/-- Lines 642-659 of `RenderScene`: the mug. -/
def renderMug (M : FloatMath F) (s : SceneManager F) : SceneManager F :=
  let s := LoadMesh .cylinder s
  let s := SetTransformations M ⟨0.8, 1.2, 0.8⟩ 0.0 0.0 0.0 ⟨-7.5, 0.6, 2.5⟩ s
  let s := SetShaderColor 1.0 1.0 1.0 1.0 s
  let s := DrawMesh .cylinder s
  let s := SetTransformations M ⟨0.78, 0.05, 0.78⟩ 0.0 0.0 0.0 ⟨-7.5, 1.2, 2.5⟩ s
  let s := SetShaderColor 0.2 0.2 0.2 1.0 s
  DrawMesh .cylinder s

/-- `RenderScene` (lines 479-662), in the order of its sections. -/
def RenderScene (M : FloatMath F) (material0 : OBJECT_MATERIAL F) (s : SceneManager F) :
    Option (SceneManager F) := do
  let s := renderDesk M s
  let s := renderLaptop M s
  let s := renderMouse M s
  let s ← renderLamp M material0 s
  let s := renderBooks M s
  return renderMug M s

end Scene

/-! ### Drivers used to state properties of call sequences -/

/-- Calls `CreateGLTexture` for each `(filename, tag)` in turn and goes on only
while the call returns `true`. -/
def registerAll (env : Env) : List (String × String) → SceneManager F → Option (SceneManager F)
  | [], s => some s
  | (filename, tag) :: rest, s =>
    match CreateGLTexture env filename tag s with
    | some (true, s1) => registerAll env rest s1
    | _ => none

end SceneManager

/-! ## Concrete inputs -/

/-- A world in which every file decodes to a 64 x 64 RGB image and the `k`-th
generated texture name is `k + 1`. -/
def rgbEnv : Env where
  stbi_load := fun _ => some ⟨64, 64, 3⟩
  glGenTextures := fun k => k + 1

/-- A world in which every file decodes to a one-channel image. -/
def greyEnv : Env where
  stbi_load := fun _ => some ⟨64, 64, 1⟩
  glGenTextures := fun k => k + 1

/-- A world in which `glGenTextures` hands out the name `0xFFFFFFFF`. -/
def maxNameEnv : Env where
  stbi_load := fun _ => some ⟨64, 64, 3⟩
  glGenTextures := fun _ => 4294967295

/-- A scene manager right after construction, with a shader whose uniforms are
all unset and a texture table of 16 cells. -/
def freshScene : SceneManager ℚ :=
  SceneManager.new (some (fun _ => none)) 16

/-- The scene manager that `PrepareScene` leaves behind in `rgbEnv`. -/
def preparedScene : SceneManager ℚ :=
  (SceneManager.PrepareScene rgbEnv freshScene).getD freshScene

/-- The four `CreateGLTexture` calls of `PrepareScene`, in order. -/
def prepareCalls : List (String × String) :=
  [("Green_Mouse_Texture.jpg", "mouse"), ("Green_Mouse_Texture.jpg", "mouse"),
   ("metal_Texture.jpg", "lamp"), ("wood.jpg", "desk")]

/-- A second material under the tag "lampShade", glossier than the one of
`DefineObjectMaterials`. -/
def glossyMaterial : OBJECT_MATERIAL ℚ where
  ambientColor := ⟨1, 1, 1⟩
  ambientStrength := 1
  diffuseColor := ⟨1, 1, 1⟩
  specularColor := ⟨1, 1, 1⟩
  shininess := 90
  tag := "lampShade"

/-- A caller-side material with every number zero and an empty tag. -/
def blankMaterial : OBJECT_MATERIAL ℚ where
  ambientColor := ⟨0, 0, 0⟩
  ambientStrength := 0
  diffuseColor := ⟨0, 0, 0⟩
  specularColor := ⟨0, 0, 0⟩
  shininess := 0
  tag := ""

/-! ## Calls between two draws -/

/-- The calls that may come between two draws without selecting a shading
mode: a transform, a mesh load, a draw. -/
inductive FrameOp (F : Type) where
  | apply (scaleXYZ : Vec3 F) (XrotationDegrees YrotationDegrees ZrotationDegrees : F)
      (positionXYZ : Vec3 F)
  | load (m : MeshType)
  | draw (m : MeshType)

namespace SceneManager

variable {F : Type} [Field F]

/-- One call of `FrameOp` carried out by the scene manager. -/
def runOp (M : FloatMath F) : FrameOp F → SceneManager F → SceneManager F
  | .apply sc rx ry rz pos, s => SetTransformations M sc rx ry rz pos s
  | .load m, s => LoadMesh m s
  | .draw m, s => DrawMesh m s

/-- A sequence of such calls, carried out from left to right. -/
def runOps (M : FloatMath F) : List (FrameOp F) → SceneManager F → SceneManager F
  | [], s => s
  | op :: ops, s => runOps M ops (runOp M op s)

end SceneManager

/-- The uniforms that select the shading of a draw: texture switch, sampler,
flat colour and the five material values. -/
def shadingUniforms : List String :=
  ["bUseTexture", "objectTexture", "objectColor", "material.ambientColor",
   "material.ambientStrength", "material.diffuseColor", "material.specularColor",
   "material.shininess"]

/-! ## Light uniforms -/

/-- The six fields of a light source in the shader. -/
def lightFields : List String :=
  ["position", "ambientColor", "diffuseColor", "specularColor", "focalStrength",
   "specularIntensity"]

/-- Name of the uniform holding `field` of light slot `i`. -/
def lightUniform (i : Nat) (field : String) : String :=
  "lightSources[" ++ toString i ++ "]." ++ field

/-- The uniforms of the light slots 0, 1, 2 and 3: six for each slot. -/
def lightUniforms : List String :=
  [0, 1, 2, 3].flatMap fun i => lightFields.map (lightUniform i)

/-- A sequence of uniform writes, carried out from left to right. -/
def ShaderManager.applyWrites {F : Type} (u : Uniforms F) (ws : List (String × UniformValue F)) :
    Uniforms F :=
  ws.foldl (fun acc w => ShaderManager.setValue acc w.1 w.2) u

namespace SceneManager

/-- The writes of `SetupSceneLights` in the order of the source, with the loop
at lines 420-428 unrolled; `sceneLights_eq_applyWrites` shows that this is what
`sceneLights` does. -/
def lightWrites {F : Type} [Field F] : List (String × UniformValue F) :=
  [("lightSources[0].position", .vec3V ⟨0.0, 10.0, -10.0⟩),
   ("lightSources[0].ambientColor", .vec3V ⟨-1.05, -1.05, -1.02⟩),
   ("lightSources[0].diffuseColor", .vec3V ⟨0.25, 0.25, 0.12⟩),
   ("lightSources[0].specularColor", .vec3V ⟨0.9, 0.9, 0.8⟩),
   ("lightSources[0].focalStrength", .floatV 25.0),
   ("lightSources[0].specularIntensity", .floatV 3.0),
   ("lightSources[1].position", .vec3V ⟨0.0, 5.0, -10.0⟩),
   ("lightSources[1].ambientColor", .vec3V ⟨0.02, 0.02, 0.08⟩),
   ("lightSources[1].diffuseColor", .vec3V ⟨0.2, 0.2, 0.9⟩),
   ("lightSources[1].specularColor", .vec3V ⟨0.6, 0.6, 1.0⟩),
   ("lightSources[1].focalStrength", .floatV 15.0),
   ("lightSources[1].specularIntensity", .floatV 2.5),
   ("lightSources[2].position", .vec3V ⟨0.0, 7.0, -7.0⟩),
   ("lightSources[2].ambientColor", .vec3V ⟨0.0, 0.0, 0.0⟩),
   ("lightSources[2].diffuseColor", .vec3V ⟨0.0, 0.0, 0.0⟩),
   ("lightSources[2].specularColor", .vec3V ⟨0.0, 0.0, 0.0⟩),
   ("lightSources[2].focalStrength", .floatV 0.0),
   ("lightSources[2].specularIntensity", .floatV 0.0),
   ("lightSources[3].position", .vec3V ⟨0.0, 7.0, -7.0⟩),
   ("lightSources[3].ambientColor", .vec3V ⟨0.0, 0.0, 0.0⟩),
   ("lightSources[3].diffuseColor", .vec3V ⟨0.0, 0.0, 0.0⟩),
   ("lightSources[3].specularColor", .vec3V ⟨0.0, 0.0, 0.0⟩),
   ("lightSources[3].focalStrength", .floatV 0.0),
   ("lightSources[3].specularIntensity", .floatV 0.0),
   ("bUseLighting", .boolV true)]

/-- `SetupSceneLights` called `n` times in a row. -/
def repeatSetupSceneLights {F : Type} [Field F] : Nat → SceneManager F → Option (SceneManager F)
  | 0, s => some s
  | n + 1, s => (SetupSceneLights s).bind (repeatSetupSceneLights n)

end SceneManager

/-! ## Reference transforms

The matrices that the description of the transform builder names: the textbook
homogeneous translation, axis rotations (counter-clockwise, angle in degrees)
and scaling.  They are written down independently of `glm.rotate` and compared
with what `SetTransformations` computes. -/

namespace Transform

variable {F : Type} [Field F]

/-- Translation by `p`. -/
def Translate (p : Vec3 F) : Mat4 F :=
  Matrix.of fun i j =>
    if i = j then 1
    else if j = 3 then (if i = 0 then p.x else if i = 1 then p.y else p.z)
    else 0

/-- Scaling by the factors of `v` along the three axes. -/
def Scale (v : Vec3 F) : Mat4 F :=
  Matrix.diagonal ![v.x, v.y, v.z, 1]

/-- Rotation about the x axis by `deg` degrees. -/
def RotateX (M : FloatMath F) (deg : F) : Mat4 F :=
  !![1, 0, 0, 0;
     0, M.cos (M.radians deg), -M.sin (M.radians deg), 0;
     0, M.sin (M.radians deg), M.cos (M.radians deg), 0;
     0, 0, 0, 1]

/-- Rotation about the y axis by `deg` degrees. -/
def RotateY (M : FloatMath F) (deg : F) : Mat4 F :=
  !![M.cos (M.radians deg), 0, M.sin (M.radians deg), 0;
     0, 1, 0, 0;
     -M.sin (M.radians deg), 0, M.cos (M.radians deg), 0;
     0, 0, 0, 1]

/-- Rotation about the z axis by `deg` degrees. -/
def RotateZ (M : FloatMath F) (deg : F) : Mat4 F :=
  !![M.cos (M.radians deg), -M.sin (M.radians deg), 0, 0;
     M.sin (M.radians deg), M.cos (M.radians deg), 0, 0;
     0, 0, 1, 0;
     0, 0, 0, 1]

/-- The point `(x, y, z)` in homogeneous coordinates. -/
def point (x y z : F) : Fin 4 → F := ![x, y, z, 1]

end Transform

/-- Trigonometry over the rationals that is exact on the right angles 0, 90,
180 and 270 degrees (angles stay in degrees) and is not meant for other
angles. -/
def rightAngleMath : FloatMath ℚ where
  radians := fun d => d
  cos := fun d => if d = 0 then 1 else if d = 180 then -1 else 0
  sin := fun d => if d = 90 then 1 else if d = 270 then -1 else 0

/-! ## Texture registry: lemmas -/

namespace SceneManager

variable {F : Type}

theorem findSlotLoop_of_not_mem (tag : String) (l : List TEXTURE_INFO) (i : Nat)
    (h : ∀ e ∈ l, e.tag ≠ tag) : findSlotLoop tag l i = -1 := by
  induction l generalizing i with
  | nil => rfl
  | cons e es ih =>
    have he : e.tag ≠ tag := h e (List.mem_cons_self _ _)
    simp only [findSlotLoop, he, if_false]
    exact ih _ (fun x hx => h x (List.mem_cons_of_mem _ hx))

theorem findIDLoop_of_not_mem (tag : String) (l : List TEXTURE_INFO) (i : Nat)
    (h : ∀ e ∈ l, e.tag ≠ tag) : findIDLoop tag l i = -1 := by
  induction l generalizing i with
  | nil => rfl
  | cons e es ih =>
    have he : e.tag ≠ tag := h e (List.mem_cons_self _ _)
    simp only [findIDLoop, he, if_false]
    exact ih _ (fun x hx => h x (List.mem_cons_of_mem _ hx))

/-- On a hit the slot loop returns the start index plus the position of the
first cell carrying the tag. -/
theorem findSlotLoop_of_mem (tag : String) (l : List TEXTURE_INFO) (i : Nat)
    (h : ∃ e ∈ l, e.tag = tag) :
    findSlotLoop tag l i = ((i + (l.map TEXTURE_INFO.tag).indexOf tag : Nat) : Int) := by
  induction l generalizing i with
  | nil => obtain ⟨e, he, _⟩ := h; cases he
  | cons e es ih =>
    by_cases he : e.tag = tag
    · simp [findSlotLoop, he]
    · have h' : ∃ x ∈ es, x.tag = tag := by
        obtain ⟨x, hx, hxt⟩ := h
        rcases List.mem_cons.1 hx with rfl | hx
        · exact absurd hxt he
        · exact ⟨x, hx, hxt⟩
      simp only [findSlotLoop, he, if_false, List.map_cons]
      rw [ih (i + 1) h', List.indexOf_cons_ne _ he]
      congr 1
      omega

/-- The slot loop never answers with a negative number on a hit. -/
theorem findSlotLoop_nonneg_of_mem (tag : String) (l : List TEXTURE_INFO) (i : Nat)
    (h : ∃ e ∈ l, e.tag = tag) : 0 ≤ findSlotLoop tag l i := by
  rw [findSlotLoop_of_mem tag l i h]
  exact Int.natCast_nonneg _

/-- The ID loop looks at the cells before the first hit only. -/
theorem findIDLoop_append_of_mem (tag : String) (l l2 : List TEXTURE_INFO) (i : Nat)
    (h : ∃ e ∈ l, e.tag = tag) : findIDLoop tag (l ++ l2) i = findIDLoop tag l i := by
  induction l generalizing i with
  | nil => obtain ⟨e, he, _⟩ := h; cases he
  | cons e es ih =>
    by_cases he : e.tag = tag
    · simp [findIDLoop, he]
    · have h' : ∃ x ∈ es, x.tag = tag := by
        obtain ⟨x, hx, hxt⟩ := h
        rcases List.mem_cons.1 hx with rfl | hx
        · exact absurd hxt he
        · exact ⟨x, hx, hxt⟩
      simp only [List.cons_append, findIDLoop, he, if_false]
      exact ih _ h'

theorem findIDLoop_append_of_not_mem (tag : String) (l l2 : List TEXTURE_INFO) (i : Nat)
    (h : ∀ e ∈ l, e.tag ≠ tag) :
    findIDLoop tag (l ++ l2) i = findIDLoop tag l2 (i + l.length) := by
  induction l generalizing i with
  | nil => simp
  | cons e es ih =>
    have he : e.tag ≠ tag := h e (List.mem_cons_self _ _)
    have hrec := ih (i + 1) (fun x hx => h x (List.mem_cons_of_mem _ hx))
    have harith : i + 1 + es.length = i + (es.length + 1) := by omega
    rw [harith] at hrec
    simpa [findIDLoop, he] using hrec

/-- On a hit the ID loop returns the converted name of some cell with the tag. -/
theorem findIDLoop_of_mem (tag : String) (l : List TEXTURE_INFO) (i : Nat)
    (h : ∃ e ∈ l, e.tag = tag) :
    ∃ e ∈ l, e.tag = tag ∧ findIDLoop tag l i = toInt32 e.ID := by
  induction l generalizing i with
  | nil => obtain ⟨e, he, _⟩ := h; cases he
  | cons e es ih =>
    by_cases he : e.tag = tag
    · exact ⟨e, List.mem_cons_self _ _, he, by simp [findIDLoop, he]⟩
    · have h' : ∃ x ∈ es, x.tag = tag := by
        obtain ⟨x, hx, hxt⟩ := h
        rcases List.mem_cons.1 hx with rfl | hx
        · exact absurd hxt he
        · exact ⟨x, hx, hxt⟩
      obtain ⟨x, hx, hxt, hres⟩ := ih (i + 1) h'
      exact ⟨x, List.mem_cons_of_mem _ hx, hxt, by simp [findIDLoop, he, hres]⟩

/-- Storing at cell `n` of a list with more than `n` cells and then looking at
the first `n + 1` cells. -/
theorem take_succ_set {α : Type} (l : List α) (n : Nat) (x : α) (h : n < l.length) :
    (l.set n x).take (n + 1) = l.take n ++ [x] := by
  induction l generalizing n with
  | nil => simp at h
  | cons a as ih =>
    cases n with
    | zero => simp
    | succ m =>
      have hm : m < as.length := by simpa using h
      simp [ih m hm]

/-- What a successful `CreateGLTexture` does to the table. -/
theorem CreateGLTexture_true (env : Env) (filename tag : String) (s s1 : SceneManager F)
    (h : CreateGLTexture env filename tag s = some (true, s1)) :
    s1.registered = s.registered ++ [⟨tag, env.glGenTextures s.gl.genCalls % 2 ^ 32⟩] ∧
    s1.m_loadedTextures = s.m_loadedTextures + 1 ∧
    s1.m_textureIDs.length = s.m_textureIDs.length := by
  unfold CreateGLTexture at h
  cases hl : env.stbi_load filename with
  | none => simp [hl] at h
  | some image =>
    simp only [hl] at h
    split_ifs at h with hc hroom
    · simp only [Option.some.injEq, Prod.mk.injEq, true_and] at h
      subst h
      refine ⟨?_, rfl, by simp⟩
      simp only [registered]
      exact take_succ_set _ _ _ hroom
    · simp at h

end SceneManager

namespace SceneManager

variable {F : Type}

/-- Position of the first occurrence against any position of an occurrence. -/
theorem indexOf_of_getElem? (l : List String) (k : Nat) (t : String) (h : l[k]? = some t) :
    l.indexOf t ≤ k ∧ ((∀ j, j < k → l[j]? ≠ some t) → l.indexOf t = k) := by
  induction l generalizing k with
  | nil => simp at h
  | cons a as ih =>
    by_cases ha : a = t
    · subst ha
      refine ⟨by simp, fun hno => ?_⟩
      cases k with
      | zero => simp
      | succ m => exact absurd (by simp) (hno 0 (Nat.succ_pos m))
    · cases k with
      | zero => simp at h; exact absurd h ha
      | succ m =>
        have hm : as[m]? = some t := by simpa using h
        obtain ⟨h1, h2⟩ := ih m hm
        rw [List.indexOf_cons_ne _ ha]
        refine ⟨Nat.succ_le_succ h1, fun hno => ?_⟩
        have : as.indexOf t = m := h2 (fun j hj => by simpa using hno (j + 1) (Nat.succ_lt_succ hj))
        omega

/-- A run of successful registrations appends its tags to the table in order. -/
theorem registerAll_registered (env : Env) (calls : List (String × String))
    (s s1 : SceneManager F) (h : registerAll env calls s = some s1) :
    s1.registered.map TEXTURE_INFO.tag = s.registered.map TEXTURE_INFO.tag ++ calls.map Prod.snd ∧
    s1.m_loadedTextures = s.m_loadedTextures + calls.length := by
  induction calls generalizing s with
  | nil =>
    simp only [registerAll, Option.some.injEq] at h
    subst h
    simp
  | cons c rest ih =>
    obtain ⟨filename, tag⟩ := c
    simp only [registerAll] at h
    cases hc : CreateGLTexture env filename tag s with
    | none => simp [hc] at h
    | some r =>
      obtain ⟨b, s2⟩ := r
      cases b with
      | false => simp [hc] at h
      | true =>
        simp only [hc] at h
        obtain ⟨h1, h2, _⟩ := CreateGLTexture_true env filename tag s s2 hc
        obtain ⟨h3, h4⟩ := ih s2 h
        refine ⟨?_, ?_⟩
        · rw [h3, h1]; simp
        · rw [h4, h2]; simp; omega

end SceneManager

/-! ## Texture registry: claims -/

open SceneManager in
/-- C1 (as amended): after any run of successful `CreateGLTexture` calls on a
scene manager that had no texture yet, the `k`-th call (counted from 0) is
stored in cell `k`, and `FindTextureSlot` with its tag returns the position of
the first call of the run made with that tag; that position is at most `k`, and
it is `k` whenever no earlier call used the same tag. -/
theorem C1_findSlot_first_registration {F : Type} (env : Env) (calls : List (String × String))
    (s0 s1 : SceneManager F) (h0 : s0.m_loadedTextures = 0)
    (hreg : registerAll env calls s0 = some s1)
    (k : Nat) (t : String) (hk : (calls.map Prod.snd)[k]? = some t) :
    s1.m_loadedTextures = calls.length ∧
    (s1.registered[k]?).map TEXTURE_INFO.tag = some t ∧
    s1.FindTextureSlot t = (((calls.map Prod.snd).indexOf t : Nat) : Int) ∧
    (calls.map Prod.snd).indexOf t ≤ k ∧
    ((∀ j, j < k → (calls.map Prod.snd)[j]? ≠ some t) → s1.FindTextureSlot t = (k : Int)) := by
  obtain ⟨htags, hcount⟩ := registerAll_registered env calls s0 s1 hreg
  have hempty : s0.registered = [] := by simp [registered, h0]
  rw [hempty] at htags
  simp only [List.map_nil, List.nil_append] at htags
  have hmem : ∃ e ∈ s1.registered, e.tag = t := by
    have : t ∈ s1.registered.map TEXTURE_INFO.tag := by
      rw [htags]; exact List.getElem?_mem hk
    obtain ⟨e, he, het⟩ := List.mem_map.1 this
    exact ⟨e, he, het⟩
  have hslot : s1.FindTextureSlot t = (((calls.map Prod.snd).indexOf t : Nat) : Int) := by
    unfold FindTextureSlot
    rw [findSlotLoop_of_mem t _ 0 hmem, htags]
    simp
  obtain ⟨hle, heq⟩ := indexOf_of_getElem? _ k t hk
  refine ⟨by simpa [h0] using hcount, ?_, hslot, hle, fun hno => ?_⟩
  · rw [← List.getElem?_map, htags]; exact hk
  · rw [hslot, heq hno]

open SceneManager in
/-- Witness of C1: in the run of the four calls of `PrepareScene` the tag
"desk" is used by call 3 only and is found at slot 3. -/
theorem C1_findSlot_first_registration_witness :
    ∃ s1, registerAll rgbEnv prepareCalls freshScene = some s1 ∧
      s1.FindTextureSlot "desk" = 3 := by
  refine ⟨_, rfl, ?_⟩
  exact (C1_findSlot_first_registration rgbEnv prepareCalls freshScene _ rfl rfl 3 "desk"
    (by decide)).2.2.2.2 (by decide)

open SceneManager in
/-- C1 as stated fails on `PrepareScene` itself: it registers the tag "mouse"
twice, so the texture registered at position 1 carries a tag that
`FindTextureSlot` resolves to slot 0. -/
theorem C1_counterexample :
    ∃ s1, PrepareScene rgbEnv freshScene = some s1 ∧
      s1.m_loadedTextures = 4 ∧
      (s1.registered[1]?).map TEXTURE_INFO.tag = some "mouse" ∧
      s1.FindTextureSlot "mouse" = 0 ∧
      s1.FindTextureSlot "mouse" ≠ 1 := by
  refine ⟨_, rfl, ?_, ?_, ?_, ?_⟩ <;> decide

open SceneManager in
/-- C4: when the file decodes to an image whose channel count is neither 3 nor
4, `CreateGLTexture` returns `false`, and the counter, every cell of the table
and therefore every answer of `FindTextureSlot` and `FindTextureID` are as
before the call. -/
theorem C4_bad_channels_register_nothing {F : Type} (env : Env) (filename tag : String)
    (s : SceneManager F) (image : Image) (hload : env.stbi_load filename = some image)
    (h3 : image.colorChannels ≠ 3) (h4 : image.colorChannels ≠ 4) :
    ∃ s1, CreateGLTexture env filename tag s = some (false, s1) ∧
      s1.m_loadedTextures = s.m_loadedTextures ∧
      s1.m_textureIDs = s.m_textureIDs ∧
      ∀ t, s1.FindTextureSlot t = s.FindTextureSlot t ∧ s1.FindTextureID t = s.FindTextureID t := by
  have hc : ¬(image.colorChannels = 3 ∨ image.colorChannels = 4) := by simp [h3, h4]
  unfold CreateGLTexture
  simp only [hload, hc, if_false]
  exact ⟨_, rfl, rfl, rfl, fun t => ⟨rfl, rfl⟩⟩

open SceneManager in
/-- Witness of C4: a one-channel image offered to the scene manager that
`PrepareScene` left behind. -/
theorem C4_bad_channels_register_nothing_witness :
    ∃ s1, CreateGLTexture greyEnv "grey.png" "grey" preparedScene = some (false, s1) ∧
      s1.m_loadedTextures = preparedScene.m_loadedTextures ∧
      s1.m_textureIDs = preparedScene.m_textureIDs ∧
      ∀ t, s1.FindTextureSlot t = preparedScene.FindTextureSlot t ∧
        s1.FindTextureID t = preparedScene.FindTextureID t :=
  C4_bad_channels_register_nothing greyEnv "grey.png" "grey" preparedScene ⟨64, 64, 1⟩ rfl
    (by decide) (by decide)

/-- The converted name is the sentinel exactly for the name `0xFFFFFFFF`. -/
theorem toInt32_eq_neg_one_iff (n : Nat) : toInt32 n = -1 ↔ n % 2 ^ 32 = 2 ^ 32 - 1 := by
  unfold toInt32
  have hlt : n % 2 ^ 32 < 2 ^ 32 := Nat.mod_lt _ (by norm_num)
  norm_num at hlt ⊢
  split_ifs with h <;> omega

open SceneManager in
/-- C5 (as amended): when the file decodes to an image with 3 or 4 channels,
the table has a free cell, and neither the newly generated OpenGL name nor a
name already in the table is `0xFFFFFFFF`, `CreateGLTexture` returns `true`,
raises the counter by exactly one, and `FindTextureID` with the same tag then
returns a value different from `-1`. -/
theorem C5_register_then_findHandle {F : Type} (env : Env) (filename tag : String)
    (s : SceneManager F) (image : Image) (hload : env.stbi_load filename = some image)
    (hch : image.colorChannels = 3 ∨ image.colorChannels = 4)
    (hroom : s.m_loadedTextures < s.m_textureIDs.length)
    (hnew : env.glGenTextures s.gl.genCalls % 2 ^ 32 ≠ 2 ^ 32 - 1)
    (hold : ∀ e ∈ s.registered, e.ID % 2 ^ 32 ≠ 2 ^ 32 - 1) :
    ∃ s1, CreateGLTexture env filename tag s = some (true, s1) ∧
      s1.m_loadedTextures = s.m_loadedTextures + 1 ∧
      s1.FindTextureID tag ≠ -1 := by
  have hex : ∃ s1, CreateGLTexture env filename tag s = some (true, s1) := by
    unfold CreateGLTexture
    simp only [hload, hch, if_true, hroom, dite_true]
    exact ⟨_, rfl⟩
  obtain ⟨s1, hs1⟩ := hex
  obtain ⟨hreg, hcount, _⟩ := CreateGLTexture_true env filename tag s s1 hs1
  refine ⟨s1, hs1, hcount, ?_⟩
  have hmem : ∃ e ∈ s1.registered, e.tag = tag := by
    rw [hreg]
    exact ⟨⟨tag, env.glGenTextures s.gl.genCalls % 2 ^ 32⟩,
      List.mem_append_right _ (List.mem_singleton_self _), rfl⟩
  obtain ⟨e, he, _, hres⟩ := findIDLoop_of_mem tag s1.registered 0 hmem
  unfold FindTextureID
  rw [hres]
  intro hneg
  rw [toInt32_eq_neg_one_iff] at hneg
  rw [hreg] at he
  rcases List.mem_append.1 he with he | he
  · exact hold e he hneg
  · simp only [List.mem_singleton] at he
    subst he
    simp only [Nat.mod_mod] at hneg
    exact hnew hneg

open SceneManager in
/-- Witness of C5: one more RGB texture registered after `PrepareScene`. -/
theorem C5_register_then_findHandle_witness :
    ∃ s1, CreateGLTexture rgbEnv "wood.jpg" "table" preparedScene = some (true, s1) ∧
      s1.m_loadedTextures = preparedScene.m_loadedTextures + 1 ∧
      s1.FindTextureID "table" ≠ -1 :=
  C5_register_then_findHandle rgbEnv "wood.jpg" "table" preparedScene ⟨64, 64, 3⟩ rfl
    (by decide) (by decide) (by decide) (by decide)

open SceneManager in
/-- C5 as stated fails in two registry states.  When all 16 cells of the table
are in use the store of the next registration falls outside the table, so the
call has no defined result.  And when OpenGL hands out the name `0xFFFFFFFF`
the registration succeeds but `FindTextureID` answers `-1` for its tag. -/
theorem C5_counterexample :
    (∃ s16, registerAll rgbEnv (List.replicate 16 ("wood.jpg", "desk")) freshScene = some s16 ∧
      s16.m_loadedTextures = 16 ∧ s16.m_textureIDs.length = 16 ∧
      (CreateGLTexture rgbEnv "wood.jpg" "desk" s16).isNone = true) ∧
    (∃ s1, CreateGLTexture maxNameEnv "wood.jpg" "desk" freshScene = some (true, s1) ∧
      s1.FindTextureID "desk" = -1) := by
  refine ⟨⟨_, rfl, ?_, ?_, ?_⟩, ⟨_, rfl, ?_⟩⟩ <;> decide

open SceneManager in
/-- C6: for a tag carried by none of the cells in use (in particular when no
texture is registered) `FindTextureSlot` and `FindTextureID` both return `-1`;
for a tag carried by a cell in use `FindTextureSlot` returns a number that is
not negative, hence not `-1`. -/
theorem C6_not_found_sentinel {F : Type} (s : SceneManager F) (tag : String) :
    ((∀ e ∈ s.registered, e.tag ≠ tag) →
      s.FindTextureSlot tag = -1 ∧ s.FindTextureID tag = -1) ∧
    ((∃ e ∈ s.registered, e.tag = tag) →
      0 ≤ s.FindTextureSlot tag ∧ s.FindTextureSlot tag ≠ -1) := by
  refine ⟨fun h => ⟨findSlotLoop_of_not_mem tag _ 0 h, findIDLoop_of_not_mem tag _ 0 h⟩,
    fun h => ?_⟩
  have hpos : 0 ≤ s.FindTextureSlot tag := findSlotLoop_nonneg_of_mem tag _ 0 h
  exact ⟨hpos, by omega⟩

open SceneManager in
/-- Witness of C6: after `PrepareScene` the tag "chair" is in no cell and the
tag "mouse" is in cell 0. -/
theorem C6_not_found_sentinel_witness :
    (preparedScene.FindTextureSlot "chair" = -1 ∧ preparedScene.FindTextureID "chair" = -1) ∧
    (0 ≤ preparedScene.FindTextureSlot "mouse" ∧ preparedScene.FindTextureSlot "mouse" ≠ -1) :=
  ⟨(C6_not_found_sentinel preparedScene "chair").1 (by decide),
   (C6_not_found_sentinel preparedScene "mouse").2 (by decide)⟩

/-! ## Material registry -/

namespace SceneManager

variable {F : Type}

/-- The material loop copies from the first stored material with the tag, and
leaves the caller's material alone when there is none. -/
theorem findMaterialLoop_eq_find (tag : String) (l : List (OBJECT_MATERIAL F))
    (material : OBJECT_MATERIAL F) :
    findMaterialLoop tag l material =
      match l.find? (fun x => decide (x.tag = tag)) with
      | some stored => copyMaterialFields stored material
      | none => material := by
  induction l with
  | nil => rfl
  | cons m ms ih =>
    by_cases hm : m.tag = tag
    · simp [findMaterialLoop, hm]
    · simp [findMaterialLoop, hm, ih]

theorem findMaterialLoop_of_not_mem (tag : String) (l : List (OBJECT_MATERIAL F))
    (material : OBJECT_MATERIAL F) (h : ∀ m ∈ l, m.tag ≠ tag) :
    findMaterialLoop tag l material = material := by
  induction l with
  | nil => rfl
  | cons m ms ih =>
    have hm : m.tag ≠ tag := h m (List.mem_cons_self _ _)
    simp only [findMaterialLoop, hm, if_false]
    exact ih (fun x hx => h x (List.mem_cons_of_mem _ hx))

end SceneManager

open SceneManager in
/-- C2 (as amended): after `m` is appended to any material list, `FindMaterial`
with the tag of `m` returns `true` and fills the caller's material from the
first stored material carrying that tag; when no material stored before carries
the tag, the five fields written are exactly those of `m`. -/
theorem C2_define_then_find {F : Type} (s : SceneManager F) (m material : OBJECT_MATERIAL F) :
    ((pushMaterial m s).FindMaterial m.tag material).1 = true ∧
    (∃ stored, (s.m_objectMaterials ++ [m]).find? (fun x => decide (x.tag = m.tag)) = some stored ∧
      ((pushMaterial m s).FindMaterial m.tag material).2 = copyMaterialFields stored material) ∧
    ((∀ x ∈ s.m_objectMaterials, x.tag ≠ m.tag) →
      ((pushMaterial m s).FindMaterial m.tag material).2.ambientColor = m.ambientColor ∧
      ((pushMaterial m s).FindMaterial m.tag material).2.ambientStrength = m.ambientStrength ∧
      ((pushMaterial m s).FindMaterial m.tag material).2.diffuseColor = m.diffuseColor ∧
      ((pushMaterial m s).FindMaterial m.tag material).2.specularColor = m.specularColor ∧
      ((pushMaterial m s).FindMaterial m.tag material).2.shininess = m.shininess) := by
  have hne : ¬ ((s.m_objectMaterials ++ [m]).length = 0) := by simp
  have hfm : (pushMaterial m s).FindMaterial m.tag material =
      (true, findMaterialLoop m.tag (s.m_objectMaterials ++ [m]) material) := by
    simp only [FindMaterial, pushMaterial, hne, if_false]
  rw [hfm]
  refine ⟨rfl, ?_, fun hfresh => ?_⟩
  · rw [findMaterialLoop_eq_find]
    cases hfind : (s.m_objectMaterials ++ [m]).find? (fun x => decide (x.tag = m.tag)) with
    | none =>
      have := List.find?_eq_none.1 hfind m (by simp)
      simp at this
    | some stored => exact ⟨stored, rfl, rfl⟩
  · have hfind : (s.m_objectMaterials ++ [m]).find? (fun x => decide (x.tag = m.tag)) = some m := by
      rw [List.find?_append]
      have h1 : s.m_objectMaterials.find? (fun x => decide (x.tag = m.tag)) = none :=
        List.find?_eq_none.2 (fun x hx => by simpa using hfresh x hx)
      simp [h1]
    simp only [findMaterialLoop_eq_find, hfind, copyMaterialFields, and_self]

open SceneManager in
/-- Witness of C2: the material of `DefineObjectMaterials` appended to the
empty list of a new scene manager and looked up again. -/
theorem C2_define_then_find_witness :
    ((DefineObjectMaterials freshScene).FindMaterial "lampShade" blankMaterial).2.ambientColor
        = (lampShadeMaterial : OBJECT_MATERIAL ℚ).ambientColor ∧
    ((DefineObjectMaterials freshScene).FindMaterial "lampShade" blankMaterial).2.ambientStrength
        = (lampShadeMaterial : OBJECT_MATERIAL ℚ).ambientStrength ∧
    ((DefineObjectMaterials freshScene).FindMaterial "lampShade" blankMaterial).2.diffuseColor
        = (lampShadeMaterial : OBJECT_MATERIAL ℚ).diffuseColor ∧
    ((DefineObjectMaterials freshScene).FindMaterial "lampShade" blankMaterial).2.specularColor
        = (lampShadeMaterial : OBJECT_MATERIAL ℚ).specularColor ∧
    ((DefineObjectMaterials freshScene).FindMaterial "lampShade" blankMaterial).2.shininess
        = (lampShadeMaterial : OBJECT_MATERIAL ℚ).shininess :=
  (C2_define_then_find freshScene lampShadeMaterial blankMaterial).2.2
    (fun x hx => by simp [freshScene, SceneManager.new] at hx)

open SceneManager in
/-- C2 as stated fails when the tag is already in use: with the material of
`DefineObjectMaterials` stored first, appending `glossyMaterial` under the same
tag "lampShade" and looking the tag up returns `true` with the shininess 40 of
the older material, not the 90 of the one just appended. -/
theorem C2_counterexample :
    ((pushMaterial glossyMaterial (DefineObjectMaterials freshScene)).FindMaterial
        glossyMaterial.tag blankMaterial).1 = true ∧
    ((pushMaterial glossyMaterial (DefineObjectMaterials freshScene)).FindMaterial
        glossyMaterial.tag blankMaterial).2.shininess = 40 ∧
    glossyMaterial.shininess = 90 ∧
    ((pushMaterial glossyMaterial (DefineObjectMaterials freshScene)).FindMaterial
        glossyMaterial.tag blankMaterial).2.shininess ≠ glossyMaterial.shininess := by
  have h : ((pushMaterial glossyMaterial (DefineObjectMaterials freshScene)).FindMaterial
        glossyMaterial.tag blankMaterial).2.shininess = 40 := by
    simp [FindMaterial, pushMaterial, DefineObjectMaterials, freshScene, SceneManager.new,
      findMaterialLoop, lampShadeMaterial, glossyMaterial, copyMaterialFields]
    norm_num
  refine ⟨rfl, h, rfl, ?_⟩
  rw [h]
  norm_num [glossyMaterial]

open SceneManager in
/-- C7: `FindMaterial` returns `false` exactly when no material is stored; when
materials are stored and none carries the tag it returns `true` and hands the
caller's material back unchanged, all five fields included. -/
theorem C7_findMaterial_miss {F : Type} (s : SceneManager F) (tag : String)
    (material : OBJECT_MATERIAL F) :
    ((s.FindMaterial tag material).1 = false ↔ s.m_objectMaterials = []) ∧
    (s.m_objectMaterials ≠ [] → (∀ m ∈ s.m_objectMaterials, m.tag ≠ tag) →
      (s.FindMaterial tag material).1 = true ∧
      (s.FindMaterial tag material).2 = material ∧
      (s.FindMaterial tag material).2.ambientColor = material.ambientColor ∧
      (s.FindMaterial tag material).2.ambientStrength = material.ambientStrength ∧
      (s.FindMaterial tag material).2.diffuseColor = material.diffuseColor ∧
      (s.FindMaterial tag material).2.specularColor = material.specularColor ∧
      (s.FindMaterial tag material).2.shininess = material.shininess) := by
  constructor
  · unfold FindMaterial
    by_cases h : s.m_objectMaterials.length = 0
    · simp [h, List.length_eq_zero.1 h]
    · have hne : s.m_objectMaterials ≠ [] := fun he => h (by simp [he])
      simp [h, hne]
  · intro hne hmiss
    have hlen : ¬ (s.m_objectMaterials.length = 0) := fun he => hne (List.length_eq_zero.1 he)
    have hfm : s.FindMaterial tag material = (true, material) := by
      simp only [FindMaterial, hlen, if_false, findMaterialLoop_of_not_mem tag _ material hmiss]
    rw [hfm]
    exact ⟨rfl, rfl, rfl, rfl, rfl, rfl, rfl⟩

open SceneManager in
/-- Witness of C7: with only the "lampShade" material stored, a lookup of
"glass" reports `true` and returns the blank material it was given. -/
theorem C7_findMaterial_miss_witness :
    ((DefineObjectMaterials freshScene).FindMaterial "glass" blankMaterial).1 = true ∧
    ((DefineObjectMaterials freshScene).FindMaterial "glass" blankMaterial).2 = blankMaterial ∧
    ((DefineObjectMaterials freshScene).FindMaterial "glass" blankMaterial).2.ambientColor
      = blankMaterial.ambientColor ∧
    ((DefineObjectMaterials freshScene).FindMaterial "glass" blankMaterial).2.ambientStrength
      = blankMaterial.ambientStrength ∧
    ((DefineObjectMaterials freshScene).FindMaterial "glass" blankMaterial).2.diffuseColor
      = blankMaterial.diffuseColor ∧
    ((DefineObjectMaterials freshScene).FindMaterial "glass" blankMaterial).2.specularColor
      = blankMaterial.specularColor ∧
    ((DefineObjectMaterials freshScene).FindMaterial "glass" blankMaterial).2.shininess
      = blankMaterial.shininess :=
  (C7_findMaterial_miss (DefineObjectMaterials freshScene) "glass" blankMaterial).2
    (by simp [DefineObjectMaterials, pushMaterial])
    (by simp [DefineObjectMaterials, pushMaterial, freshScene, SceneManager.new, lampShadeMaterial])

/-! ## Transform builder -/

namespace glm

variable {F : Type} [Field F]

theorem scale_eq (v : Vec3 F) : scale v = Transform.Scale v := by
  ext i j
  fin_cases i <;> fin_cases j <;> simp [scale, Transform.Scale, Matrix.diagonal, Matrix.vecHead, Matrix.vecTail]

theorem translate_eq (v : Vec3 F) : translate v = Transform.Translate v := by
  ext i j
  fin_cases i <;> fin_cases j <;> simp [translate, Transform.Translate, Matrix.vecHead, Matrix.vecTail]

theorem rotate_x_eq (M : FloatMath F) (deg : F) :
    rotate M (M.radians deg) ⟨1, 0, 0⟩ = Transform.RotateX M deg := by
  ext i j
  fin_cases i <;> fin_cases j <;> simp [rotate, Transform.RotateX]

theorem rotate_y_eq (M : FloatMath F) (deg : F) :
    rotate M (M.radians deg) ⟨0, 1, 0⟩ = Transform.RotateY M deg := by
  ext i j
  fin_cases i <;> fin_cases j <;> simp [rotate, Transform.RotateY]

theorem rotate_z_eq (M : FloatMath F) (deg : F) :
    rotate M (M.radians deg) ⟨0, 0, 1⟩ = Transform.RotateZ M deg := by
  ext i j
  fin_cases i <;> fin_cases j <;> simp [rotate, Transform.RotateZ]

end glm

namespace SceneManager

variable {F : Type} [Field F]

/-- The matrix of `SetTransformations` is the product of the reference
transforms, taken in the order of the source. -/
theorem modelView_eq (M : FloatMath F) (scaleXYZ : Vec3 F) (rx ry rz : F) (p : Vec3 F) :
    modelView M scaleXYZ rx ry rz p =
      Transform.Translate p * Transform.RotateX M rx * Transform.RotateY M ry *
        Transform.RotateZ M rz * Transform.Scale scaleXYZ := by
  simp only [modelView, glm.scale_eq, glm.translate_eq, glm.rotate_x_eq, glm.rotate_y_eq,
    glm.rotate_z_eq]

/-- With a shader present `SetTransformations` is one write of "model". -/
theorem SetTransformations_some (M : FloatMath F) (scaleXYZ : Vec3 F) (rx ry rz : F)
    (p : Vec3 F) (s : SceneManager F) (u : Uniforms F) (hs : s.m_pShaderManager = some u) :
    SetTransformations M scaleXYZ rx ry rz p s =
      { s with
        m_pShaderManager :=
          some (ShaderManager.setValue u "model" (.mat4V (modelView M scaleXYZ rx ry rz p))) } := by
  simp only [SetTransformations, hs, ShaderManager.setMat4Value, g_ModelName]

end SceneManager

open SceneManager Transform in
/-- C3: with a shader present, `SetTransformations` changes the scene manager
only by writing the uniform "model"; every other uniform keeps its value; the
value written is `Translate p * RotateX rx * RotateY ry * RotateZ rz * Scale s`,
multiplied in that order, so a point is scaled first, then rotated about z,
about y and about x, then translated. -/
theorem C3_model_matrix {F : Type} [Field F] (M : FloatMath F) (scaleXYZ : Vec3 F)
    (rx ry rz : F) (p : Vec3 F) (s : SceneManager F) (u : Uniforms F)
    (hs : s.m_pShaderManager = some u) :
    ∃ u1 : Uniforms F,
      SetTransformations M scaleXYZ rx ry rz p s = { s with m_pShaderManager := some u1 } ∧
      u1 "model" = some (.mat4V (Translate p * RotateX M rx * RotateY M ry * RotateZ M rz *
        Scale scaleXYZ)) ∧
      (∀ n, n ≠ "model" → u1 n = u n) ∧
      ∀ v : Fin 4 → F,
        (Translate p * RotateX M rx * RotateY M ry * RotateZ M rz * Scale scaleXYZ).mulVec v =
          (Translate p).mulVec ((RotateX M rx).mulVec ((RotateY M ry).mulVec
            ((RotateZ M rz).mulVec ((Scale scaleXYZ).mulVec v)))) := by
  refine ⟨_, SetTransformations_some M scaleXYZ rx ry rz p s u hs, ?_, ?_, ?_⟩
  · simp [ShaderManager.setValue, modelView_eq]
  · intro n hn
    simp [ShaderManager.setValue, hn]
  · intro v
    simp only [Matrix.mulVec_mulVec, Matrix.mul_assoc]

open SceneManager Transform in
/-- Witness of C3: a new scene manager, scale (2,1,1), rotation (0,90,0) and
position (1,0,0). -/
theorem C3_model_matrix_witness :
    ∃ u1 : Uniforms ℚ,
      SetTransformations rightAngleMath ⟨2, 1, 1⟩ 0 90 0 ⟨1, 0, 0⟩ freshScene =
        { freshScene with m_pShaderManager := some u1 } ∧
      u1 "model" = some (.mat4V (Translate ⟨1, 0, 0⟩ * RotateX rightAngleMath 0 *
        RotateY rightAngleMath 90 * RotateZ rightAngleMath 0 * Scale ⟨2, 1, 1⟩)) ∧
      (∀ n, n ≠ "model" → u1 n = (fun _ => none) n) ∧
      ∀ v : Fin 4 → ℚ,
        (Translate ⟨1, 0, 0⟩ * RotateX rightAngleMath 0 * RotateY rightAngleMath 90 *
          RotateZ rightAngleMath 0 * Scale ⟨2, 1, 1⟩).mulVec v =
          (Translate ⟨1, 0, 0⟩).mulVec ((RotateX rightAngleMath 0).mulVec
            ((RotateY rightAngleMath 90).mulVec ((RotateZ rightAngleMath 0).mulVec
              ((Scale ⟨2, 1, 1⟩).mulVec v)))) :=
  C3_model_matrix rightAngleMath ⟨2, 1, 1⟩ 0 90 0 ⟨1, 0, 0⟩ freshScene (fun _ => none) rfl

namespace Transform

variable {F : Type} [Field F]

/-- A rotation by an angle with cosine 1 and sine 0 is the unit matrix. -/
theorem RotateX_eq_one (M : FloatMath F) (deg : F) (hc : M.cos (M.radians deg) = 1)
    (hs : M.sin (M.radians deg) = 0) : RotateX M deg = 1 := by
  ext i j
  fin_cases i <;> fin_cases j <;> simp [RotateX, hc, hs, Matrix.vecHead, Matrix.vecTail]

theorem RotateZ_eq_one (M : FloatMath F) (deg : F) (hc : M.cos (M.radians deg) = 1)
    (hs : M.sin (M.radians deg) = 0) : RotateZ M deg = 1 := by
  ext i j
  fin_cases i <;> fin_cases j <;> simp [RotateZ, hc, hs, Matrix.vecHead, Matrix.vecTail]

/-- Where `Translate (1,0,0) * RotateY 90 * Scale (2,1,1)` sends the point
`(1,0,0)` when the cosine of 90 degrees is 0 and its sine is 1. -/
theorem known_point (M : FloatMath F) (hc : M.cos (M.radians 90) = 0)
    (hs : M.sin (M.radians 90) = 1) :
    (Translate ⟨1, 0, 0⟩ * RotateY M 90 * Scale ⟨2, 1, 1⟩).mulVec (point 1 0 0) =
      point 1 0 (-2) := by
  rw [← Matrix.mulVec_mulVec, ← Matrix.mulVec_mulVec]
  ext i
  fin_cases i <;>
    simp [Translate, RotateY, Scale, point, Matrix.mulVec, Matrix.dotProduct,
      Fin.sum_univ_four, Matrix.diagonal, hc, hs, Matrix.vecHead, Matrix.vecTail]

end Transform

open SceneManager Transform in
/-- C8 (as amended): when the cosine and sine are exact at 0 and 90 degrees,
`SetTransformations` with scale (2,1,1), rotations (0,90,0) and position
(1,0,0) uploads `Translate (1,0,0) * RotateY 90 * Scale (2,1,1)` as "model", and
that matrix maps the local point (1,0,0) to the world point (1,0,-2). -/
theorem C8_known_point {F : Type} [Field F] (M : FloatMath F)
    (hc90 : M.cos (M.radians 90) = 0) (hs90 : M.sin (M.radians 90) = 1)
    (hc0 : M.cos (M.radians 0) = 1) (hs0 : M.sin (M.radians 0) = 0)
    (s : SceneManager F) (u : Uniforms F) (hs : s.m_pShaderManager = some u) :
    ∃ u1 : Uniforms F,
      SetTransformations M ⟨2, 1, 1⟩ 0 90 0 ⟨1, 0, 0⟩ s = { s with m_pShaderManager := some u1 } ∧
      u1 "model" = some (.mat4V (Translate ⟨1, 0, 0⟩ * RotateY M 90 * Scale ⟨2, 1, 1⟩)) ∧
      (Translate ⟨1, 0, 0⟩ * RotateY M 90 * Scale ⟨2, 1, 1⟩).mulVec (point 1 0 0) =
        point 1 0 (-2) := by
  refine ⟨_, SetTransformations_some M ⟨2, 1, 1⟩ 0 90 0 ⟨1, 0, 0⟩ s u hs, ?_,
    known_point M hc90 hs90⟩
  simp [ShaderManager.setValue, modelView_eq, RotateX_eq_one M 0 hc0 hs0,
    RotateZ_eq_one M 0 hc0 hs0]

open SceneManager Transform in
/-- Witness of C8: the right-angle trigonometry over the rationals and a new
scene manager. -/
theorem C8_known_point_witness :
    ∃ u1 : Uniforms ℚ,
      SetTransformations rightAngleMath ⟨2, 1, 1⟩ 0 90 0 ⟨1, 0, 0⟩ freshScene =
        { freshScene with m_pShaderManager := some u1 } ∧
      u1 "model" = some (.mat4V (Translate ⟨1, 0, 0⟩ * RotateY rightAngleMath 90 *
        Scale ⟨2, 1, 1⟩)) ∧
      (Translate ⟨1, 0, 0⟩ * RotateY rightAngleMath 90 * Scale ⟨2, 1, 1⟩).mulVec (point 1 0 0) =
        point 1 0 (-2) :=
  C8_known_point rightAngleMath (by norm_num [rightAngleMath]) (by norm_num [rightAngleMath])
    (by norm_num [rightAngleMath]) (by norm_num [rightAngleMath]) freshScene (fun _ => none) rfl

open SceneManager Transform in
/-- C8 as stated fails: with the cosine of 90 degrees 0 and its sine 1, the
matrix that `SetTransformations` uploads for scale (2,1,1), rotations (0,90,0)
and position (1,0,0) sends the local point (1,0,0) to (1,0,-2), which is not
the point (1,0,1). -/
theorem C8_counterexample :
    ∃ m : Mat4 ℚ,
      (SetTransformations rightAngleMath ⟨2, 1, 1⟩ 0 90 0 ⟨1, 0, 0⟩ freshScene).m_pShaderManager.bind
        (fun u => u "model") = some (.mat4V m) ∧
      m.mulVec (point 1 0 0) = point 1 0 (-2) ∧
      m.mulVec (point 1 0 0) ≠ point 1 0 1 := by
  have hpt : (modelView rightAngleMath ⟨2, 1, 1⟩ 0 90 0 ⟨1, 0, 0⟩).mulVec (point 1 0 0) =
      point 1 0 (-2) := by
    rw [modelView_eq, RotateX_eq_one rightAngleMath 0 (by norm_num [rightAngleMath])
      (by norm_num [rightAngleMath]), RotateZ_eq_one rightAngleMath 0
      (by norm_num [rightAngleMath]) (by norm_num [rightAngleMath]), mul_one, mul_one]
    exact known_point rightAngleMath (by norm_num [rightAngleMath]) (by norm_num [rightAngleMath])
  refine ⟨modelView rightAngleMath ⟨2, 1, 1⟩ 0 90 0 ⟨1, 0, 0⟩, ?_, hpt, ?_⟩
  · simp [SetTransformations_some rightAngleMath ⟨2, 1, 1⟩ 0 90 0 ⟨1, 0, 0⟩ freshScene
      (fun _ => none) rfl, ShaderManager.setValue]
  · rw [hpt]
    intro h
    have h2 := congrFun h 2
    norm_num [point] at h2

/-! ## Light configurator -/

namespace ShaderManager

variable {F : Type}

/-- A name that no write of the sequence carries keeps its value. -/
theorem applyWrites_of_not_mem (ws : List (String × UniformValue F)) (u : Uniforms F)
    (n : String) (h : n ∉ ws.map Prod.fst) : applyWrites u ws n = u n := by
  induction ws generalizing u with
  | nil => rfl
  | cons w ws ih =>
    have h1 : n ≠ w.1 := fun he => h (by simp [he])
    have h2 : n ∉ ws.map Prod.fst := fun hm => h (by simp only [List.map_cons]; exact List.mem_cons_of_mem _ hm)
    show applyWrites (setValue u w.1 w.2) ws n = u n
    rw [ih _ h2]
    simp [setValue, h1]

/-- A name that some write of the sequence carries ends up set, with a value
that does not depend on the state before. -/
theorem applyWrites_of_mem (ws : List (String × UniformValue F)) (u u1 : Uniforms F)
    (n : String) (h : n ∈ ws.map Prod.fst) :
    (applyWrites u ws n).isSome = true ∧ applyWrites u1 ws n = applyWrites u ws n := by
  induction ws generalizing u u1 with
  | nil => simp at h
  | cons w ws ih =>
    show (applyWrites (setValue u w.1 w.2) ws n).isSome = true ∧
      applyWrites (setValue u1 w.1 w.2) ws n = applyWrites (setValue u w.1 w.2) ws n
    by_cases hm : n ∈ ws.map Prod.fst
    · exact ih _ _ hm
    · have hn : n = w.1 := by
        simp only [List.map_cons, List.mem_cons] at h
        rcases h with h | h
        · exact h
        · exact absurd h hm
      rw [applyWrites_of_not_mem ws _ n hm, applyWrites_of_not_mem ws _ n hm]
      simp [setValue, hn]

/-- Carrying out a sequence of writes twice gives the state after carrying it
out once. -/
theorem applyWrites_idem (ws : List (String × UniformValue F)) (u : Uniforms F) :
    applyWrites (applyWrites u ws) ws = applyWrites u ws := by
  funext n
  by_cases hm : n ∈ ws.map Prod.fst
  · exact (applyWrites_of_mem ws u _ n hm).2
  · rw [applyWrites_of_not_mem ws _ n hm]

end ShaderManager

namespace SceneManager

variable {F : Type} [Field F]

theorem lightBase_two : "lightSources[" ++ toString 2 ++ "]" = "lightSources[2]" := by decide

theorem lightBase_three : "lightSources[" ++ toString 3 ++ "]" = "lightSources[3]" := by decide

/-- `sceneLights` carries out the writes listed in `lightWrites`. -/
theorem sceneLights_eq_applyWrites (u : Uniforms F) :
    sceneLights u = ShaderManager.applyWrites u lightWrites := by
  simp only [sceneLights, zeroLightSource, List.foldl, lightBase_two, lightBase_three,
    String.reduceAppend]
  rfl

/-- The names written by `sceneLights`: the 24 light uniforms and the lighting
switch. -/
theorem lightWrites_names :
    (lightWrites : List (String × UniformValue F)).map Prod.fst =
      lightUniforms ++ ["bUseLighting"] := by
  have h : lightUniforms ++ ["bUseLighting"] =
      ["lightSources[0].position", "lightSources[0].ambientColor",
       "lightSources[0].diffuseColor", "lightSources[0].specularColor",
       "lightSources[0].focalStrength", "lightSources[0].specularIntensity",
       "lightSources[1].position", "lightSources[1].ambientColor",
       "lightSources[1].diffuseColor", "lightSources[1].specularColor",
       "lightSources[1].focalStrength", "lightSources[1].specularIntensity",
       "lightSources[2].position", "lightSources[2].ambientColor",
       "lightSources[2].diffuseColor", "lightSources[2].specularColor",
       "lightSources[2].focalStrength", "lightSources[2].specularIntensity",
       "lightSources[3].position", "lightSources[3].ambientColor",
       "lightSources[3].diffuseColor", "lightSources[3].specularColor",
       "lightSources[3].focalStrength", "lightSources[3].specularIntensity",
       "bUseLighting"] := by decide
  rw [h]
  rfl

theorem sceneLights_idem (u : Uniforms F) : sceneLights (sceneLights u) = sceneLights u := by
  simp only [sceneLights_eq_applyWrites, ShaderManager.applyWrites_idem]

/-- Once the shader is there, any positive number of runs ends in the state of
one run. -/
theorem repeatSetupSceneLights_succ (n : Nat) (s : SceneManager F) (u : Uniforms F)
    (hs : s.m_pShaderManager = some u) :
    repeatSetupSceneLights (n + 1) s = some { s with m_pShaderManager := some (sceneLights u) } := by
  induction n generalizing s u with
  | zero => simp [repeatSetupSceneLights, SetupSceneLights, hs]
  | succ k ih =>
    have hone : SetupSceneLights s = some { s with m_pShaderManager := some (sceneLights u) } := by
      simp [SetupSceneLights, hs]
    rw [repeatSetupSceneLights, hone, Option.some_bind, ih _ (sceneLights u) rfl]
    simp [sceneLights_idem]

end SceneManager

namespace SceneManager

variable {F : Type} [Field F]

/-- What `sceneLights` leaves in the colour and strength fields of the slots
2 and 3. -/
theorem sceneLights_unused_slots (u : Uniforms F) :
    sceneLights u "lightSources[2].ambientColor" = some (.vec3V ⟨0, 0, 0⟩) ∧
    sceneLights u "lightSources[2].diffuseColor" = some (.vec3V ⟨0, 0, 0⟩) ∧
    sceneLights u "lightSources[2].specularColor" = some (.vec3V ⟨0, 0, 0⟩) ∧
    sceneLights u "lightSources[2].focalStrength" = some (.floatV 0) ∧
    sceneLights u "lightSources[2].specularIntensity" = some (.floatV 0) ∧
    sceneLights u "lightSources[3].ambientColor" = some (.vec3V ⟨0, 0, 0⟩) ∧
    sceneLights u "lightSources[3].diffuseColor" = some (.vec3V ⟨0, 0, 0⟩) ∧
    sceneLights u "lightSources[3].specularColor" = some (.vec3V ⟨0, 0, 0⟩) ∧
    sceneLights u "lightSources[3].focalStrength" = some (.floatV 0) ∧
    sceneLights u "lightSources[3].specularIntensity" = some (.floatV 0) := by
  have hzero : (0.0 : F) = 0 := by norm_num
  simp only [sceneLights, zeroLightSource, List.foldl, lightBase_two, lightBase_three,
    String.reduceAppend]
  refine ⟨?_, ?_, ?_, ?_, ?_, ?_, ?_, ?_, ?_, ?_⟩ <;>
    simp [ShaderManager.setBoolValue, ShaderManager.setFloatValue, ShaderManager.setVec3Value3,
      ShaderManager.setValue, g_UseLightingName, hzero]

end SceneManager

open SceneManager in
/-- C9: with a shader present, `n >= 1` runs of `SetupSceneLights` succeed and
end in the state of a single run.  Whatever the uniforms were before a run,
after it each of the 24 uniforms of the light slots 0 to 3 is set, to a value
that does not depend on the state before; no uniform other than these and the
lighting switch changes; and the slots 2 and 3 hold (0,0,0) in their three
colours and 0 in focal strength and specular intensity. -/
theorem C9_lights_idempotent {F : Type} [Field F] (s : SceneManager F) (u : Uniforms F)
    (hs : s.m_pShaderManager = some u) (n : Nat) (hn : 1 ≤ n) :
    repeatSetupSceneLights n s = some { s with m_pShaderManager := some (sceneLights u) } ∧
    repeatSetupSceneLights n s = repeatSetupSceneLights 1 s ∧
    lightUniforms.length = 4 * 6 ∧
    (∀ name ∈ lightUniforms, ∀ u0 : Uniforms F,
      (sceneLights u0 name).isSome = true ∧ sceneLights u0 name = sceneLights u name) ∧
    (∀ name, name ∉ lightUniforms → name ≠ "bUseLighting" → sceneLights u name = u name) ∧
    sceneLights u "lightSources[2].ambientColor" = some (.vec3V ⟨0, 0, 0⟩) ∧
    sceneLights u "lightSources[2].diffuseColor" = some (.vec3V ⟨0, 0, 0⟩) ∧
    sceneLights u "lightSources[2].specularColor" = some (.vec3V ⟨0, 0, 0⟩) ∧
    sceneLights u "lightSources[2].focalStrength" = some (.floatV 0) ∧
    sceneLights u "lightSources[2].specularIntensity" = some (.floatV 0) ∧
    sceneLights u "lightSources[3].ambientColor" = some (.vec3V ⟨0, 0, 0⟩) ∧
    sceneLights u "lightSources[3].diffuseColor" = some (.vec3V ⟨0, 0, 0⟩) ∧
    sceneLights u "lightSources[3].specularColor" = some (.vec3V ⟨0, 0, 0⟩) ∧
    sceneLights u "lightSources[3].focalStrength" = some (.floatV 0) ∧
    sceneLights u "lightSources[3].specularIntensity" = some (.floatV 0) := by
  obtain ⟨k, rfl⟩ : ∃ k, n = k + 1 := ⟨n - 1, by omega⟩
  refine ⟨repeatSetupSceneLights_succ k s u hs, ?_, by decide, ?_, ?_, sceneLights_unused_slots u⟩
  · rw [repeatSetupSceneLights_succ k s u hs, repeatSetupSceneLights_succ 0 s u hs]
  · intro name hname u0
    have hmem : name ∈ (lightWrites : List (String × UniformValue F)).map Prod.fst := by
      rw [lightWrites_names]; exact List.mem_append_left _ hname
    simp only [sceneLights_eq_applyWrites]
    exact ⟨(ShaderManager.applyWrites_of_mem lightWrites u0 u0 name hmem).1,
      (ShaderManager.applyWrites_of_mem lightWrites u u0 name hmem).2⟩
  · intro name hname hswitch
    have hmem : name ∉ (lightWrites : List (String × UniformValue F)).map Prod.fst := by
      rw [lightWrites_names]
      simp only [List.mem_append, List.mem_singleton, not_or]
      exact ⟨hname, hswitch⟩
    rw [sceneLights_eq_applyWrites, ShaderManager.applyWrites_of_not_mem _ _ _ hmem]

open SceneManager in
/-- Witness of C9: three runs on a new scene manager whose uniforms are all
unset. -/
theorem C9_lights_idempotent_witness :
    repeatSetupSceneLights 3 freshScene = repeatSetupSceneLights 1 freshScene ∧
    sceneLights (fun _ => none : Uniforms ℚ) "lightSources[3].focalStrength" = some (.floatV 0) :=
  ⟨(C9_lights_idempotent freshScene (fun _ => none) rfl 3 (by decide)).2.1,
   (C9_lights_idempotent freshScene (fun _ => none) rfl 3
     (by decide)).2.2.2.2.2.2.2.2.2.2.2.2.2.1⟩

/-! ## Carry-over of the shading mode -/

namespace SceneManager

variable {F : Type}

@[simp] theorem LoadMesh_shader (m : MeshType) (s : SceneManager F) :
    (LoadMesh m s).m_pShaderManager = s.m_pShaderManager := rfl

@[simp] theorem LoadMesh_gl (m : MeshType) (s : SceneManager F) : (LoadMesh m s).gl = s.gl := rfl

@[simp] theorem DrawMesh_shader (m : MeshType) (s : SceneManager F) :
    (DrawMesh m s).m_pShaderManager = s.m_pShaderManager := rfl

@[simp] theorem DrawMesh_drawCalls (m : MeshType) (s : SceneManager F) :
    (DrawMesh m s).gl.drawCalls = s.gl.drawCalls ++ [(m, s.m_pShaderManager)] := rfl

section

variable [Field F]

@[simp] theorem SetTransformations_gl (M : FloatMath F) (sc : Vec3 F) (rx ry rz : F) (pos : Vec3 F)
    (s : SceneManager F) : (SetTransformations M sc rx ry rz pos s).gl = s.gl := by
  unfold SetTransformations
  cases s.m_pShaderManager <;> rfl

end

@[simp] theorem SetShaderColor_gl (r g b a : F) (s : SceneManager F) :
    (SetShaderColor r g b a s).gl = s.gl := by
  unfold SetShaderColor
  cases s.m_pShaderManager <;> rfl

@[simp] theorem SetShaderTexture_gl (tag : String) (s : SceneManager F) :
    (SetShaderTexture tag s).gl = s.gl := by
  unfold SetShaderTexture
  cases s.m_pShaderManager <;> rfl

section

variable [Field F]

@[simp] theorem SetTransformations_isSome (M : FloatMath F) (sc : Vec3 F) (rx ry rz : F)
    (pos : Vec3 F) (s : SceneManager F) :
    (SetTransformations M sc rx ry rz pos s).m_pShaderManager.isSome =
      s.m_pShaderManager.isSome := by
  unfold SetTransformations
  cases h : s.m_pShaderManager <;> simp [h]

end

@[simp] theorem SetShaderColor_isSome (r g b a : F) (s : SceneManager F) :
    (SetShaderColor r g b a s).m_pShaderManager.isSome = s.m_pShaderManager.isSome := by
  unfold SetShaderColor
  cases h : s.m_pShaderManager <;> simp [h]

@[simp] theorem SetShaderTexture_isSome (tag : String) (s : SceneManager F) :
    (SetShaderTexture tag s).m_pShaderManager.isSome = s.m_pShaderManager.isSome := by
  unfold SetShaderTexture
  cases h : s.m_pShaderManager <;> simp [h]

/-- With a shader present `SetShaderMaterial` returns, keeps the shader and
leaves the OpenGL context alone. -/
theorem SetShaderMaterial_some (material0 : OBJECT_MATERIAL F) (tag : String)
    (s : SceneManager F) (hs : s.m_pShaderManager.isSome = true) :
    ∃ s1, SetShaderMaterial material0 tag s = some s1 ∧ s1.gl = s.gl ∧
      s1.m_pShaderManager.isSome = true := by
  obtain ⟨u, hu⟩ := Option.isSome_iff_exists.1 hs
  unfold SetShaderMaterial
  by_cases hlen : s.m_objectMaterials.length > 0
  · have hne : ¬ (s.m_objectMaterials.length = 0) := by omega
    simp only [hlen, if_true, FindMaterial, hne, if_false, hu]
    exact ⟨_, rfl, rfl, rfl⟩
  · simp only [hlen, if_false]
    exact ⟨s, rfl, rfl, hs⟩

variable [Field F]

/-- A transform, a load or a draw changes no uniform other than "model", keeps
the shader, and adds to the draw log only draws issued under such a state. -/
theorem runOps_carry (M : FloatMath F) (ops : List (FrameOp F)) (s : SceneManager F)
    (u uA : Uniforms F) (hs : s.m_pShaderManager = some u)
    (hu : ∀ n, n ≠ "model" → u n = uA n) :
    ∃ u1 mid, (runOps M ops s).m_pShaderManager = some u1 ∧
      (∀ n, n ≠ "model" → u1 n = uA n) ∧
      (runOps M ops s).gl.drawCalls = s.gl.drawCalls ++ mid ∧
      ∀ d ∈ mid, ∃ ud, d.2 = some ud ∧ ∀ n, n ≠ "model" → ud n = uA n := by
  induction ops generalizing s u with
  | nil => exact ⟨u, [], hs, hu, by simp [runOps], by simp⟩
  | cons op ops ih =>
    cases op with
    | apply sc rx ry rz pos =>
      have hstep := SetTransformations_some M sc rx ry rz pos s u hs
      obtain ⟨u1, mid, h1, h2, h3, h4⟩ := ih (SetTransformations M sc rx ry rz pos s)
        (ShaderManager.setValue u "model" (.mat4V (modelView M sc rx ry rz pos)))
        (by rw [hstep]) (fun n hn => by simp [ShaderManager.setValue, hn, hu n hn])
      refine ⟨u1, mid, h1, h2, ?_, h4⟩
      simpa [runOps, runOp] using h3
    | load m =>
      obtain ⟨u1, mid, h1, h2, h3, h4⟩ := ih (LoadMesh m s) u hs hu
      exact ⟨u1, mid, h1, h2, by simpa [runOps, runOp] using h3, h4⟩
    | draw m =>
      obtain ⟨u1, mid, h1, h2, h3, h4⟩ := ih (DrawMesh m s) u hs hu
      refine ⟨u1, (m, some u) :: mid, h1, h2, ?_, ?_⟩
      · simpa [runOps, runOp, hs] using h3
      · intro d hd
        rcases List.mem_cons.1 hd with rfl | hd
        · exact ⟨u, rfl, hu⟩
        · exact h4 d hd

end SceneManager

namespace SceneManager

variable {F : Type} [Field F]

theorem renderDesk_draws (M : FloatMath F) (s : SceneManager F) :
    ∃ ds, (renderDesk M s).gl.drawCalls = s.gl.drawCalls ++ ds ∧ ds.length = 1 ∧
      (renderDesk M s).m_pShaderManager.isSome = s.m_pShaderManager.isSome := by
  apply Exists.intro
  refine ⟨?h1, ?h2, ?h3⟩
  case h1 =>
    simp only [renderDesk, DrawMesh_drawCalls, SetShaderTexture_gl, SetShaderColor_gl,
        SetTransformations_gl]
    rfl
  case h2 => rfl
  case h3 => simp [renderDesk]

theorem renderLaptop_draws (M : FloatMath F) (s : SceneManager F) :
    ∃ ds, (renderLaptop M s).gl.drawCalls = s.gl.drawCalls ++ ds ∧ ds.length = 5 ∧
      (renderLaptop M s).m_pShaderManager.isSome = s.m_pShaderManager.isSome := by
  apply Exists.intro
  refine ⟨?h1, ?h2, ?h3⟩
  case h1 =>
    simp only [renderLaptop, DrawMesh_drawCalls, SetShaderColor_gl, SetTransformations_gl,
        LoadMesh_gl, List.append_assoc]
    rfl
  case h2 => rfl
  case h3 => simp [renderLaptop]

theorem renderMouse_draws (M : FloatMath F) (s : SceneManager F) :
    ∃ ds, (renderMouse M s).gl.drawCalls = s.gl.drawCalls ++ ds ∧ ds.length = 1 ∧
      (renderMouse M s).m_pShaderManager.isSome = s.m_pShaderManager.isSome := by
  apply Exists.intro
  refine ⟨?h1, ?h2, ?h3⟩
  case h1 =>
    simp only [renderMouse, DrawMesh_drawCalls, SetShaderTexture_gl, SetTransformations_gl,
        LoadMesh_gl]
    rfl
  case h2 => rfl
  case h3 => simp [renderMouse]

theorem renderBooks_draws (M : FloatMath F) (s : SceneManager F) :
    ∃ ds, (renderBooks M s).gl.drawCalls = s.gl.drawCalls ++ ds ∧ ds.length = 2 ∧
      (renderBooks M s).m_pShaderManager.isSome = s.m_pShaderManager.isSome := by
  apply Exists.intro
  refine ⟨?h1, ?h2, ?h3⟩
  case h1 =>
    simp only [renderBooks, DrawMesh_drawCalls, SetShaderColor_gl, SetTransformations_gl,
        LoadMesh_gl, List.append_assoc]
    rfl
  case h2 => rfl
  case h3 => simp [renderBooks]

theorem renderMug_draws (M : FloatMath F) (s : SceneManager F) :
    ∃ ds, (renderMug M s).gl.drawCalls = s.gl.drawCalls ++ ds ∧ ds.length = 2 ∧
      (renderMug M s).m_pShaderManager.isSome = s.m_pShaderManager.isSome := by
  apply Exists.intro
  refine ⟨?h1, ?h2, ?h3⟩
  case h1 =>
    simp only [renderMug, DrawMesh_drawCalls, SetShaderColor_gl, SetTransformations_gl,
        LoadMesh_gl, List.append_assoc]
    rfl
  case h2 => rfl
  case h3 => simp [renderMug]

/-- The lamp section: with a shader present it returns, it issues five draws,
and the last three of them (cone, cone, sphere) are issued under one and the
same uniform state. -/
theorem renderLamp_draws (M : FloatMath F) (material0 : OBJECT_MATERIAL F) (s : SceneManager F)
    (hs : s.m_pShaderManager.isSome = true) :
    ∃ s1 ds ush, renderLamp M material0 s = some s1 ∧
      s1.gl.drawCalls = s.gl.drawCalls ++ ds ∧ ds.length = 5 ∧
      ds[2]? = some (MeshType.cone, some ush) ∧ ds[3]? = some (MeshType.cone, some ush) ∧
      ds[4]? = some (MeshType.sphere, some ush) ∧ s1.m_pShaderManager.isSome = true := by
  obtain ⟨s2, h2, hgl, hsome⟩ := SetShaderMaterial_some material0 "lampShade"
    (SetShaderColor 0.85 0.85 0.7 1.0
      (SetTransformations M ⟨2.0, 1.5, 3.0⟩ 10.0 0.0 125.0 ⟨-12.0, 7.9, 0.0⟩
        (DrawMesh .cylinder
          (SetShaderTexture "lamp"
            (SetShaderColor 0.30 0.30 0.30 1.0
              (SetTransformations M ⟨0.25, 6.0, 0.25⟩ 0.0 0.0 0.0 ⟨-12.0, 0.7, 0.0⟩
                (DrawMesh .cylinder
                  (SetShaderColor 0.25 0.25 0.25 1.0
                    (SetTransformations M ⟨2.0, 0.2, 2.0⟩ 0.0 0.0 0.0 ⟨-12.0, 0.1, 0.0⟩
                      (LoadMesh .cone (LoadMesh .cylinder s)))))))))))
    (by simpa using hs)
  obtain ⟨ush, hush⟩ := Option.isSome_iff_exists.1 hsome
  refine ⟨DrawMesh .sphere (DrawMesh .cone (DrawMesh .cone s2)), ?_⟩
  apply Exists.intro
  refine ⟨ush, ?h0, ?h1, ?h2, ?h3, ?h4, ?h5, ?h6⟩
  case h0 => simp only [renderLamp, bind, Option.bind, h2, pure]
  case h1 =>
    simp only [DrawMesh_drawCalls, DrawMesh_shader, hgl, SetShaderColor_gl, SetTransformations_gl,
      SetShaderTexture_gl, LoadMesh_gl, hush, List.append_assoc, List.singleton_append,
      List.cons_append, List.nil_append]
    rfl
  case h2 => rfl
  case h3 => rfl
  case h4 => rfl
  case h5 => rfl
  case h6 => simpa using hsome

end SceneManager

/-- Position `7 + k` of a draw log made of sections of 1, 5, 1 and 5 draws and
a rest is position `k` of the fourth section. -/
theorem getElem?_fourth_section {α : Type} (d1 d2 d3 d4 rest : List α) (h1 : d1.length = 1)
    (h2 : d2.length = 5) (h3 : d3.length = 1) (h4 : d4.length = 5) (k : Nat) (hk : k < 5) :
    (d1 ++ (d2 ++ (d3 ++ (d4 ++ rest))))[7 + k]? = d4[k]? := by
  rw [List.getElem?_append_right (by omega), List.getElem?_append_right (by omega),
    List.getElem?_append_right (by omega), List.getElem?_append_left (by omega)]
  congr 1
  omega

open SceneManager in
/-- C10: with a shader present, if `SetShaderTexture "desk"` is called, draw A
is issued later, and only transforms, mesh loads and draws come between the
call and draw A and between draw A and draw B, then draw A runs with the
texture switch on and the sampler at the slot of "desk", and draw B and every
draw between A and B see the same values as draw A in every uniform other than
"model", in particular in the texture switch, the sampler, the object colour
and the five material uniforms.  In `RenderScene`, which issues 16 draws, the
draws 9, 10 and 11 (lamp-shade cone, second cone, sphere) are issued under one
and the same uniform state, model matrix included. -/
theorem C10_shading_carry_over {F : Type} [Field F] (M : FloatMath F)
    (material0 : OBJECT_MATERIAL F) (s : SceneManager F) (u : Uniforms F)
    (hs : s.m_pShaderManager = some u) (A B : MeshType) (before between : List (FrameOp F)) :
    (∃ uA uB pre mid,
      (DrawMesh B (runOps M between (DrawMesh A (runOps M before
          (SetShaderTexture "desk" s))))).gl.drawCalls =
        s.gl.drawCalls ++ pre ++ (A, some uA) :: mid ++ [(B, some uB)] ∧
      uA "bUseTexture" = some (.intV 1) ∧
      uA "objectTexture" = some (.sampler2DV (s.FindTextureSlot "desk")) ∧
      (∀ n, n ≠ "model" → uB n = uA n) ∧
      (∀ n ∈ shadingUniforms, uB n = uA n) ∧
      (∀ d ∈ mid, ∃ ud, d.2 = some ud ∧ ∀ n ∈ shadingUniforms, ud n = uA n)) ∧
    (∃ s1 ds ush, RenderScene M material0 s = some s1 ∧
      s1.gl.drawCalls = s.gl.drawCalls ++ ds ∧ ds.length = 16 ∧
      ds[9]? = some (MeshType.cone, some ush) ∧
      ds[10]? = some (MeshType.cone, some ush) ∧
      ds[11]? = some (MeshType.sphere, some ush)) := by
  have hshading : ∀ n ∈ shadingUniforms, n ≠ "model" := by decide
  constructor
  · have h0 : (SetShaderTexture "desk" s).m_pShaderManager =
        some (ShaderManager.setSampler2DValue (ShaderManager.setIntValue u g_UseTextureName 1)
          g_TextureValueName (s.FindTextureSlot "desk")) := by
      simp [SetShaderTexture, hs]
    obtain ⟨uA, pre, hA, hAu, hAd, _⟩ := runOps_carry M before _ _ _ h0 (fun _ _ => rfl)
    obtain ⟨uB, mid, hB, hBu, hBd, hmid⟩ := runOps_carry M between
      (DrawMesh A (runOps M before (SetShaderTexture "desk" s))) uA uA hA (fun _ _ => rfl)
    refine ⟨uA, uB, pre, mid, ?_, ?_, ?_, hBu, fun n hn => hBu n (hshading n hn), ?_⟩
    · rw [DrawMesh_drawCalls, hBd, hB, DrawMesh_drawCalls, hAd, hA, SetShaderTexture_gl]
      simp
    · rw [hAu _ (by decide)]
      simp [ShaderManager.setSampler2DValue, ShaderManager.setIntValue, ShaderManager.setValue,
        g_UseTextureName, g_TextureValueName]
    · rw [hAu _ (by decide)]
      simp [ShaderManager.setSampler2DValue, ShaderManager.setIntValue, ShaderManager.setValue,
        g_TextureValueName]
    · intro d hd
      obtain ⟨ud, hud, hcarry⟩ := hmid d hd
      exact ⟨ud, hud, fun n hn => hcarry n (hshading n hn)⟩
  · have h0 : s.m_pShaderManager.isSome = true := by simp [hs]
    obtain ⟨d1, hd1, hl1, hp1⟩ := renderDesk_draws M s
    obtain ⟨d2, hd2, hl2, hp2⟩ := renderLaptop_draws M (renderDesk M s)
    obtain ⟨d3, hd3, hl3, hp3⟩ := renderMouse_draws M (renderLaptop M (renderDesk M s))
    obtain ⟨s4, d4, ush, hrun, hd4, hl4, hi2, hi3, hi4, hp4⟩ := renderLamp_draws M material0
      (renderMouse M (renderLaptop M (renderDesk M s))) (by rw [hp3, hp2, hp1, h0])
    obtain ⟨d5, hd5, hl5, _⟩ := renderBooks_draws M s4
    obtain ⟨d6, hd6, hl6, _⟩ := renderMug_draws M (renderBooks M s4)
    refine ⟨renderMug M (renderBooks M s4), d1 ++ (d2 ++ (d3 ++ (d4 ++ (d5 ++ d6)))), ush,
      ?_, ?_, ?_, ?_, ?_, ?_⟩
    · simp only [RenderScene, bind, Option.bind, hrun, pure]
    · rw [hd6, hd5, hd4, hd3, hd2, hd1]
      simp only [List.append_assoc]
    · simp only [List.length_append, hl1, hl2, hl3, hl4, hl5, hl6]
    · rw [← hi2]; exact getElem?_fourth_section d1 d2 d3 d4 _ hl1 hl2 hl3 hl4 2 (by omega)
    · rw [← hi3]; exact getElem?_fourth_section d1 d2 d3 d4 _ hl1 hl2 hl3 hl4 3 (by omega)
    · rw [← hi4]; exact getElem?_fourth_section d1 d2 d3 d4 _ hl1 hl2 hl3 hl4 4 (by omega)

open SceneManager in
/-- Witness of C10: on the scene manager left by `PrepareScene`, "desk" is
selected, a transform follows, a cone is drawn as draw A, a second cone is
drawn in between and a sphere is draw B; and `RenderScene` on the same scene
manager. -/
theorem C10_shading_carry_over_witness :
    (∃ uA uB pre mid,
      (DrawMesh .sphere (runOps rightAngleMath [FrameOp.draw .cone]
        (DrawMesh .cone (runOps rightAngleMath [FrameOp.apply ⟨2, 1, 1⟩ 0 90 0 ⟨1, 0, 0⟩]
          (SetShaderTexture "desk" preparedScene))))).gl.drawCalls =
        preparedScene.gl.drawCalls ++ pre ++ (MeshType.cone, some uA) :: mid ++
          [(MeshType.sphere, some uB)] ∧
      uA "bUseTexture" = some (.intV 1) ∧
      uA "objectTexture" = some (.sampler2DV (preparedScene.FindTextureSlot "desk")) ∧
      (∀ n, n ≠ "model" → uB n = uA n) ∧
      (∀ n ∈ shadingUniforms, uB n = uA n) ∧
      (∀ d ∈ mid, ∃ ud, d.2 = some ud ∧ ∀ n ∈ shadingUniforms, ud n = uA n)) ∧
    (∃ s1 ds ush, RenderScene rightAngleMath blankMaterial preparedScene = some s1 ∧
      s1.gl.drawCalls = preparedScene.gl.drawCalls ++ ds ∧ ds.length = 16 ∧
      ds[9]? = some (MeshType.cone, some ush) ∧
      ds[10]? = some (MeshType.cone, some ush) ∧
      ds[11]? = some (MeshType.sphere, some ush)) :=
  C10_shading_carry_over rightAngleMath blankMaterial preparedScene
    (sceneLights (fun _ => none)) rfl .cone .sphere
    [FrameOp.apply ⟨2, 1, 1⟩ 0 90 0 ⟨1, 0, 0⟩] [FrameOp.draw .cone]

/-! ## Shading setters -/

namespace SceneManager

variable {F : Type}

/-- With a shader present `SetShaderTexture` is the write of the texture switch
followed by the write of the sampler. -/
theorem SetShaderTexture_some (tag : String) (s : SceneManager F) (u : Uniforms F)
    (hs : s.m_pShaderManager = some u) :
    SetShaderTexture tag s =
      { s with
        m_pShaderManager :=
          some (ShaderManager.setValue (ShaderManager.setValue u "bUseTexture" (.intV 1))
            "objectTexture" (.sampler2DV (s.FindTextureSlot tag))) } := by
  simp only [SetShaderTexture, hs, ShaderManager.setSampler2DValue, ShaderManager.setIntValue,
    g_UseTextureName, g_TextureValueName]

/-- With a shader present `SetShaderColor` is the write of the texture switch
followed by the write of the colour. -/
theorem SetShaderColor_some (r g b a : F) (s : SceneManager F) (u : Uniforms F)
    (hs : s.m_pShaderManager = some u) :
    SetShaderColor r g b a s =
      { s with
        m_pShaderManager :=
          some (ShaderManager.setValue (ShaderManager.setValue u "bUseTexture" (.intV 0))
            "objectColor" (.vec4V ⟨r, g, b, a⟩)) } := by
  simp only [SetShaderColor, hs, ShaderManager.setVec4Value, ShaderManager.setIntValue,
    g_UseTextureName, g_ColorValueName]

/-- On a hit the slot found is a cell in use that carries the tag, and no cell
before it does. -/
theorem findSlotLoop_first (tag : String) (l : List TEXTURE_INFO)
    (h : ∃ e ∈ l, e.tag = tag) :
    ∃ k : Nat, findSlotLoop tag l 0 = (k : Int) ∧ k < l.length ∧
      (l[k]?).map TEXTURE_INFO.tag = some tag ∧
      ∀ j, j < k → (l[j]?).map TEXTURE_INFO.tag ≠ some tag := by
  induction l with
  | nil => obtain ⟨e, he, _⟩ := h; cases he
  | cons e es ih =>
    by_cases he : e.tag = tag
    · exact ⟨0, by simp [findSlotLoop, he], by simp, by simp [he], fun j hj => absurd hj (by omega)⟩
    · have h1 : ∃ x ∈ es, x.tag = tag := by
        obtain ⟨x, hx, hxt⟩ := h
        rcases List.mem_cons.1 hx with rfl | hx
        · exact absurd hxt he
        · exact ⟨x, hx, hxt⟩
      obtain ⟨k, hk1, hk2, hk3, hk4⟩ := ih h1
      refine ⟨k + 1, ?_, by simpa using hk2, by simpa using hk3, fun j hj => ?_⟩
      · have hshift := findSlotLoop_of_mem tag es 1 h1
        have hbase := findSlotLoop_of_mem tag es 0 h1
        rw [hk1] at hbase
        simp only [findSlotLoop, he, if_false, Nat.zero_add]
        rw [hshift]
        have : (k : Int) = ((0 + (es.map TEXTURE_INFO.tag).indexOf tag : Nat) : Int) := hbase
        have hnat : k = 0 + (es.map TEXTURE_INFO.tag).indexOf tag := by exact_mod_cast this
        rw [hnat]
        push_cast
        ring
      · cases j with
        | zero => simpa using he
        | succ i => simpa using hk4 i (by omega)

end SceneManager

open SceneManager in
/-- C11: with a shader present, `SetShaderTexture` changes the scene manager
only in two uniforms: it sets the texture switch "bUseTexture" to true (the
integer 1) and the sampler "objectTexture" to `FindTextureSlot tag`.  For a tag
in use that value is the position of the first cell carrying the tag; for a tag
not in use it is `-1`, and the switch is on all the same.  `SetShaderColor`
sets the switch to false (the integer 0) and "objectColor" to the given
`(r, g, b, a)` and changes nothing else.  A draw issued after both calls runs
with the switch as the later of the two calls left it. -/
theorem C11_setTexture_setColor {F : Type} (s : SceneManager F) (u : Uniforms F)
    (hs : s.m_pShaderManager = some u) (tag : String) (r g b a : F) (m : MeshType) :
    (∃ u1 : Uniforms F, SetShaderTexture tag s = { s with m_pShaderManager := some u1 } ∧
      u1 "bUseTexture" = some (.intV 1) ∧
      u1 "objectTexture" = some (.sampler2DV (s.FindTextureSlot tag)) ∧
      ∀ n, n ≠ "bUseTexture" → n ≠ "objectTexture" → u1 n = u n) ∧
    ((∃ e ∈ s.registered, e.tag = tag) →
      ∃ k : Nat, s.FindTextureSlot tag = (k : Int) ∧ k < s.m_loadedTextures ∧
        (s.registered[k]?).map TEXTURE_INFO.tag = some tag ∧
        ∀ j, j < k → (s.registered[j]?).map TEXTURE_INFO.tag ≠ some tag) ∧
    ((∀ e ∈ s.registered, e.tag ≠ tag) →
      ∃ u1 : Uniforms F, (SetShaderTexture tag s).m_pShaderManager = some u1 ∧
        u1 "objectTexture" = some (.sampler2DV (-1)) ∧
        u1 "bUseTexture" = some (.intV 1)) ∧
    (∃ u2 : Uniforms F, SetShaderColor r g b a s = { s with m_pShaderManager := some u2 } ∧
      u2 "bUseTexture" = some (.intV 0) ∧
      u2 "objectColor" = some (.vec4V ⟨r, g, b, a⟩) ∧
      ∀ n, n ≠ "bUseTexture" → n ≠ "objectColor" → u2 n = u n) ∧
    (∃ uc : Uniforms F,
      (DrawMesh m (SetShaderColor r g b a (SetShaderTexture tag s))).gl.drawCalls =
        s.gl.drawCalls ++ [(m, some uc)] ∧
      uc "bUseTexture" = some (.intV 0)) ∧
    (∃ ut : Uniforms F,
      (DrawMesh m (SetShaderTexture tag (SetShaderColor r g b a s))).gl.drawCalls =
        s.gl.drawCalls ++ [(m, some ut)] ∧
      ut "bUseTexture" = some (.intV 1)) := by
  have htex := SetShaderTexture_some tag s u hs
  have hcol := SetShaderColor_some r g b a s u hs
  refine ⟨⟨_, htex, ?_, ?_, ?_⟩, ?_, ?_, ⟨_, hcol, ?_, ?_, ?_⟩, ?_, ?_⟩
  · simp [ShaderManager.setValue]
  · simp [ShaderManager.setValue]
  · intro n h1 h2
    simp [ShaderManager.setValue, h1, h2]
  · intro hmem
    obtain ⟨k, hk1, hk2, hk3, hk4⟩ := findSlotLoop_first tag s.registered hmem
    refine ⟨k, hk1, ?_, hk3, hk4⟩
    have hlen : s.registered.length = s.m_loadedTextures := by
      simp [registered, List.length_take, s.h_loaded]
    omega
  · intro hmiss
    have hslot : s.FindTextureSlot tag = -1 := findSlotLoop_of_not_mem tag _ 0 hmiss
    refine ⟨_, by rw [htex], ?_, ?_⟩
    · simp [ShaderManager.setValue, hslot]
    · simp [ShaderManager.setValue]
  · simp [ShaderManager.setValue]
  · simp [ShaderManager.setValue]
  · intro n h1 h2
    simp [ShaderManager.setValue, h1, h2]
  · have hlast := SetShaderColor_some r g b a (SetShaderTexture tag s)
      (ShaderManager.setValue (ShaderManager.setValue u "bUseTexture" (.intV 1))
        "objectTexture" (.sampler2DV (s.FindTextureSlot tag))) (by rw [htex])
    refine ⟨ShaderManager.setValue (ShaderManager.setValue
      (ShaderManager.setValue (ShaderManager.setValue u "bUseTexture" (.intV 1))
        "objectTexture" (.sampler2DV (s.FindTextureSlot tag))) "bUseTexture" (.intV 0))
      "objectColor" (.vec4V ⟨r, g, b, a⟩), ?_, ?_⟩
    · rw [DrawMesh_drawCalls, SetShaderColor_gl, SetShaderTexture_gl, hlast]
    · simp [ShaderManager.setValue]
  · have hlast := SetShaderTexture_some tag (SetShaderColor r g b a s)
      (ShaderManager.setValue (ShaderManager.setValue u "bUseTexture" (.intV 0))
        "objectColor" (.vec4V ⟨r, g, b, a⟩)) (by rw [hcol])
    refine ⟨ShaderManager.setValue (ShaderManager.setValue
      (ShaderManager.setValue (ShaderManager.setValue u "bUseTexture" (.intV 0))
        "objectColor" (.vec4V ⟨r, g, b, a⟩)) "bUseTexture" (.intV 1))
      "objectTexture" (.sampler2DV ((SetShaderColor r g b a s).FindTextureSlot tag)), ?_, ?_⟩
    · rw [DrawMesh_drawCalls, SetShaderTexture_gl, SetShaderColor_gl, hlast]
    · simp [ShaderManager.setValue]

open SceneManager in
/-- Witness of C11: on the scene manager left by `PrepareScene` the tag "desk"
is in use and the tag "chair" is not. -/
theorem C11_setTexture_setColor_witness :
    (∃ k : Nat, preparedScene.FindTextureSlot "desk" = (k : Int) ∧
        k < preparedScene.m_loadedTextures ∧
        (preparedScene.registered[k]?).map TEXTURE_INFO.tag = some "desk" ∧
        ∀ j, j < k → (preparedScene.registered[j]?).map TEXTURE_INFO.tag ≠ some "desk") ∧
    (∃ u1 : Uniforms ℚ, (SetShaderTexture "chair" preparedScene).m_pShaderManager = some u1 ∧
        u1 "objectTexture" = some (.sampler2DV (-1)) ∧
        u1 "bUseTexture" = some (.intV 1)) :=
  ⟨(C11_setTexture_setColor preparedScene (sceneLights (fun _ => none)) rfl "desk" 1 1 1 1
      .plane).2.1 (by decide),
   (C11_setTexture_setColor preparedScene (sceneLights (fun _ => none)) rfl "chair" 1 1 1 1
      .plane).2.2.1 (by decide)⟩

/-! ## Scene preparation -/

namespace SceneManager

variable {F : Type}

/-- The binding loop leaves the units below its start index alone. -/
theorem bindLoop_below (l : List TEXTURE_INFO) (k : Nat) (g : GLContext F) (unit : Nat)
    (h : unit < k) : (bindLoop l k g).boundTexture2D unit = g.boundTexture2D unit := by
  induction l generalizing k g with
  | nil => rfl
  | cons e es ih =>
    simp only [bindLoop]
    rw [ih (k + 1) _ (by omega)]
    have hne : unit ≠ k := by omega
    simp [glBindTexture, glActiveTexture, hne]

/-- The binding loop started at index `k` binds the `j`-th cell of its list on
unit `k + j`. -/
theorem bindLoop_bound (l : List TEXTURE_INFO) (k : Nat) (g : GLContext F) (j : Nat)
    (e : TEXTURE_INFO) (h : l[j]? = some e) :
    (bindLoop l k g).boundTexture2D (k + j) = e.ID := by
  induction l generalizing k g j with
  | nil => simp at h
  | cons a as ih =>
    cases j with
    | zero =>
      simp only [List.getElem?_cons_zero, Option.some.injEq] at h
      subst h
      simp only [bindLoop, Nat.add_zero]
      rw [bindLoop_below as (k + 1) _ k (by omega)]
      simp [glBindTexture, glActiveTexture]
    | succ i =>
      have hi : as[i]? = some e := by simpa using h
      have hrec := ih (k + 1) (glBindTexture (glActiveTexture g k) a.ID) i hi
      have harith : k + 1 + i = k + (i + 1) := by omega
      rw [harith] at hrec
      simpa [bindLoop] using hrec

/-- After `BindGLTextures` every cell in use is bound on the unit of its
position. -/
theorem BindGLTextures_bound (s : SceneManager F) (i : Nat) (e : TEXTURE_INFO)
    (h : s.registered[i]? = some e) : (BindGLTextures s).gl.boundTexture2D i = e.ID := by
  have hb := bindLoop_bound s.registered 0 s.gl i e h
  simpa [BindGLTextures] using hb

/-- A registration of a 3 or 4 channel image into a table with a free cell
succeeds; it appends one cell and leaves meshes, shader and materials alone. -/
theorem CreateGLTexture_ok (env : Env) (filename tag : String) (s : SceneManager F)
    (image : Image) (hload : env.stbi_load filename = some image)
    (hch : image.colorChannels = 3 ∨ image.colorChannels = 4)
    (hroom : s.m_loadedTextures < s.m_textureIDs.length) :
    ∃ s1, CreateGLTexture env filename tag s = some (true, s1) ∧
      s1.registered = s.registered ++ [⟨tag, env.glGenTextures s.gl.genCalls % 2 ^ 32⟩] ∧
      s1.m_loadedTextures = s.m_loadedTextures + 1 ∧
      s1.m_textureIDs.length = s.m_textureIDs.length ∧
      s1.m_basicMeshes = s.m_basicMeshes ∧
      s1.m_pShaderManager = s.m_pShaderManager := by
  have hex : ∃ s1, CreateGLTexture env filename tag s = some (true, s1) ∧
      s1.m_basicMeshes = s.m_basicMeshes ∧ s1.m_pShaderManager = s.m_pShaderManager := by
    unfold CreateGLTexture
    simp only [hload, hch, if_true, hroom, dite_true]
    exact ⟨_, rfl, rfl, rfl⟩
  obtain ⟨s1, hs1, hm, hp⟩ := hex
  obtain ⟨hreg, hcount, hlen⟩ := CreateGLTexture_true env filename tag s s1 hs1
  exact ⟨s1, hs1, hreg, hcount, hlen, hm, hp⟩

@[simp] theorem DrawMesh_meshes (m : MeshType) (s : SceneManager F) :
    (DrawMesh m s).m_basicMeshes = s.m_basicMeshes := rfl

@[simp] theorem LoadMesh_loadCalls (m : MeshType) (s : SceneManager F) :
    (LoadMesh m s).m_basicMeshes.loadCalls = s.m_basicMeshes.loadCalls ++ [m] := rfl

@[simp] theorem SetShaderColor_meshes (r g b a : F) (s : SceneManager F) :
    (SetShaderColor r g b a s).m_basicMeshes = s.m_basicMeshes := by
  unfold SetShaderColor
  cases s.m_pShaderManager <;> rfl

@[simp] theorem SetShaderTexture_meshes (tag : String) (s : SceneManager F) :
    (SetShaderTexture tag s).m_basicMeshes = s.m_basicMeshes := by
  unfold SetShaderTexture
  cases s.m_pShaderManager <;> rfl

/-- `SetShaderMaterial` does not touch the mesh provider. -/
theorem SetShaderMaterial_meshes (material0 : OBJECT_MATERIAL F) (tag : String)
    (s s1 : SceneManager F) (h : SetShaderMaterial material0 tag s = some s1) :
    s1.m_basicMeshes = s.m_basicMeshes := by
  unfold SetShaderMaterial at h
  cases hp : s.m_pShaderManager with
  | none =>
    simp only [hp] at h
    split_ifs at h
    · simp only [Option.some.injEq] at h
      subst h
      rfl
    · simp only [Option.some.injEq] at h
      subst h
      rfl
  | some u =>
    simp only [hp] at h
    split_ifs at h
    · simp only [Option.some.injEq] at h
      subst h
      rfl
    · simp only [Option.some.injEq] at h
      subst h
      rfl
    · simp only [Option.some.injEq] at h
      subst h
      rfl

section

variable [Field F]

@[simp] theorem SetTransformations_meshes (M : FloatMath F) (sc : Vec3 F) (rx ry rz : F)
    (pos : Vec3 F) (s : SceneManager F) :
    (SetTransformations M sc rx ry rz pos s).m_basicMeshes = s.m_basicMeshes := by
  unfold SetTransformations
  cases s.m_pShaderManager <;> rfl

/-- The lamp section loads the cylinder and the cone. -/
theorem renderLamp_loads (M : FloatMath F) (material0 : OBJECT_MATERIAL F)
    (s s1 : SceneManager F) (h : renderLamp M material0 s = some s1) :
    s1.m_basicMeshes.loadCalls = s.m_basicMeshes.loadCalls ++ [.cylinder, .cone] := by
  simp only [renderLamp, bind, Option.bind, pure] at h
  split at h
  · cases h
  · rename_i s2 h2
    simp only [Option.some.injEq] at h
    subst h
    have hm := SetShaderMaterial_meshes _ _ _ _ h2
    simp [hm]

/-- With a shader present `RenderScene` returns, and the mesh loads it issues
are box, sphere, cylinder, cone, box and cylinder, in this order. -/
theorem RenderScene_loads (M : FloatMath F) (material0 : OBJECT_MATERIAL F)
    (s : SceneManager F) (hs : s.m_pShaderManager.isSome = true) :
    ∃ s1, RenderScene M material0 s = some s1 ∧
      s1.m_basicMeshes.loadCalls = s.m_basicMeshes.loadCalls ++
        [.box, .sphere, .cylinder, .cone, .box, .cylinder] := by
  obtain ⟨_, _, _, hp1⟩ := renderDesk_draws M s
  obtain ⟨_, _, _, hp2⟩ := renderLaptop_draws M (renderDesk M s)
  obtain ⟨_, _, _, hp3⟩ := renderMouse_draws M (renderLaptop M (renderDesk M s))
  obtain ⟨s4, _, _, hrun, _⟩ := renderLamp_draws M material0
    (renderMouse M (renderLaptop M (renderDesk M s))) (by rw [hp3, hp2, hp1, hs])
  have hl := renderLamp_loads M material0 _ s4 hrun
  refine ⟨renderMug M (renderBooks M s4), ?_, ?_⟩
  · simp only [RenderScene, bind, Option.bind, hrun, pure]
  · simp [renderMug, renderBooks, hl, renderMouse, renderLaptop, renderDesk]

end

end SceneManager

open SceneManager in
/-- C12 (as amended): on a scene manager with a shader, no texture registered,
at least four free cells in the texture table and no mesh loaded, and with the
three image files decoding to 3 or 4 channels, `PrepareScene` returns; the only
mesh type it loads is the plane; the tags it leaves registered are exactly
"mouse", "lamp" and "desk"; and at its end every cell in use is bound on the
texture unit of its position.  The other mesh types are loaded by
`RenderScene`: after it has run on the prepared scene manager every one of the
five mesh types has been loaded. -/
theorem C12_prepare_scene {F : Type} [Field F] (env : Env) (M : FloatMath F)
    (material0 : OBJECT_MATERIAL F) (s : SceneManager F) (u : Uniforms F)
    (hs : s.m_pShaderManager = some u) (h0 : s.m_loadedTextures = 0)
    (hcap : 4 ≤ s.m_textureIDs.length) (hloads : s.m_basicMeshes.loadCalls = [])
    (hdec : ∀ f ∈ ["Green_Mouse_Texture.jpg", "metal_Texture.jpg", "wood.jpg"],
      ∃ image, env.stbi_load f = some image ∧
        (image.colorChannels = 3 ∨ image.colorChannels = 4)) :
    ∃ s1, PrepareScene env s = some s1 ∧
      (MeshType.plane ∈ s1.m_basicMeshes.loadCalls ∧
        ∀ m ∈ s1.m_basicMeshes.loadCalls, m = MeshType.plane) ∧
      (∀ t, (∃ e ∈ s1.registered, e.tag = t) ↔ (t = "mouse" ∨ t = "lamp" ∨ t = "desk")) ∧
      (∀ i e, s1.registered[i]? = some e → s1.gl.boundTexture2D i = e.ID) ∧
      ∃ s2, RenderScene M material0 s1 = some s2 ∧
        ∀ m : MeshType, m ∈ s2.m_basicMeshes.loadCalls := by
  obtain ⟨im, hmload, hmch⟩ := hdec "Green_Mouse_Texture.jpg" (by simp)
  obtain ⟨il, hlload, hlch⟩ := hdec "metal_Texture.jpg" (by simp)
  obtain ⟨id, hdload, hdch⟩ := hdec "wood.jpg" (by simp)
  have hlights : SetupSceneLights (DefineObjectMaterials s) =
      some { DefineObjectMaterials s with m_pShaderManager := some (sceneLights u) } := by
    simp [SetupSceneLights, DefineObjectMaterials, pushMaterial, hs]
  have hreg0 : s.registered = [] := by simp [registered, h0]
  obtain ⟨sd, h1, hr1, hc1, hn1, hm1, hp1⟩ := CreateGLTexture_ok env "Green_Mouse_Texture.jpg"
    "mouse" (LoadMesh .plane { DefineObjectMaterials s with
      m_pShaderManager := some (sceneLights u) }) im hmload hmch
    (by show s.m_loadedTextures < s.m_textureIDs.length; omega)
  obtain ⟨sg, h2, hr2, hc2, hn2, hm2, hp2⟩ := CreateGLTexture_ok env "Green_Mouse_Texture.jpg"
    "mouse" (LoadMesh .plane (BindGLTextures sd)) im hmload hmch
    (by show sd.m_loadedTextures < sd.m_textureIDs.length
        rw [hc1, hn1]; show s.m_loadedTextures + 1 < s.m_textureIDs.length; omega)
  obtain ⟨sh, h3, hr3, hc3, hn3, hm3, hp3⟩ := CreateGLTexture_ok env "metal_Texture.jpg"
    "lamp" sg il hlload hlch
    (by rw [hc2, hn2]; show sd.m_loadedTextures + 1 < sd.m_textureIDs.length
        rw [hc1, hn1]; show s.m_loadedTextures + 1 + 1 < s.m_textureIDs.length; omega)
  obtain ⟨si, h4, hr4, hc4, hn4, hm4, hp4⟩ := CreateGLTexture_ok env "wood.jpg"
    "desk" sh id hdload hdch
    (by rw [hc3, hn3, hc2, hn2]; show sd.m_loadedTextures + 1 + 1 < sd.m_textureIDs.length
        rw [hc1, hn1]; show s.m_loadedTextures + 1 + 1 + 1 < s.m_textureIDs.length; omega)
  have hrun : PrepareScene env s = some (BindGLTextures si) := by
    simp only [PrepareScene, bind, Option.bind, pure, hlights, h1, h2, h3, h4]
  have hloadsFinal : (BindGLTextures si).m_basicMeshes.loadCalls = [.plane, .plane] := by
    show si.m_basicMeshes.loadCalls = _
    rw [hm4, hm3, hm2]
    show sd.m_basicMeshes.loadCalls ++ [MeshType.plane] = _
    rw [hm1]
    show (s.m_basicMeshes.loadCalls ++ [MeshType.plane]) ++ [MeshType.plane] = _
    rw [hloads]
    rfl
  have hregFinal : (BindGLTextures si).registered.map TEXTURE_INFO.tag =
      ["mouse", "mouse", "lamp", "desk"] := by
    show si.registered.map TEXTURE_INFO.tag = _
    rw [hr4, hr3, hr2]
    show ((sd.registered ++ _) ++ _ ++ _).map TEXTURE_INFO.tag = _
    rw [hr1]
    show ((((s.registered ++ _) ++ _) ++ _) ++ _).map TEXTURE_INFO.tag = _
    rw [hreg0]
    rfl
  have hshader : (BindGLTextures si).m_pShaderManager.isSome = true := by
    show si.m_pShaderManager.isSome = true
    rw [hp4, hp3, hp2]
    show sd.m_pShaderManager.isSome = true
    rw [hp1]
    rfl
  obtain ⟨s2, hrender, hrloads⟩ := RenderScene_loads M material0 (BindGLTextures si) hshader
  refine ⟨BindGLTextures si, hrun, ⟨?_, ?_⟩, ?_, ?_, s2, hrender, ?_⟩
  · rw [hloadsFinal]; simp
  · rw [hloadsFinal]; intro m hm; simpa using hm
  · intro t
    have hiff : (∃ e ∈ (BindGLTextures si).registered, e.tag = t) ↔
        t ∈ (BindGLTextures si).registered.map TEXTURE_INFO.tag := by
      simp only [List.mem_map]
    rw [hiff, hregFinal]
    simp
  · intro i e hie
    exact BindGLTextures_bound si i e hie
  · intro m
    rw [hrloads, hloadsFinal]
    cases m <;> simp

open SceneManager in
/-- Witness of C12: a new scene manager with a table of 16 cells, in the world
where every file decodes to an RGB image. -/
theorem C12_prepare_scene_witness :
    ∃ s1, PrepareScene rgbEnv freshScene = some s1 ∧
      (MeshType.plane ∈ s1.m_basicMeshes.loadCalls ∧
        ∀ m ∈ s1.m_basicMeshes.loadCalls, m = MeshType.plane) ∧
      (∀ t, (∃ e ∈ s1.registered, e.tag = t) ↔ (t = "mouse" ∨ t = "lamp" ∨ t = "desk")) ∧
      (∀ i e, s1.registered[i]? = some e → s1.gl.boundTexture2D i = e.ID) ∧
      ∃ s2, RenderScene rightAngleMath blankMaterial s1 = some s2 ∧
        ∀ m : MeshType, m ∈ s2.m_basicMeshes.loadCalls :=
  C12_prepare_scene rgbEnv rightAngleMath blankMaterial freshScene (fun _ => none) rfl rfl
    (by decide) rfl (fun _ _ => ⟨⟨64, 64, 3⟩, rfl, Or.inl rfl⟩)

open SceneManager in
/-- C12 as stated fails on a new scene manager with every image decoding to
RGB: `PrepareScene` issues two load calls, both for the plane, and none for
box, sphere, cylinder or cone; and it registers four textures, two of them
under the tag "mouse".  Two more ways the statement fails: when the images
decode to one channel nothing is registered at all, and with a null shader
pointer `SetupSceneLights` dereferences it, so the call has no defined
result. -/
theorem C12_counterexample :
    (∃ s1, PrepareScene rgbEnv freshScene = some s1 ∧
      s1.m_basicMeshes.loadCalls = [MeshType.plane, MeshType.plane] ∧
      MeshType.box ∉ s1.m_basicMeshes.loadCalls ∧
      s1.m_loadedTextures = 4 ∧
      s1.registered.map TEXTURE_INFO.tag = ["mouse", "mouse", "lamp", "desk"]) ∧
    (∃ s1, PrepareScene greyEnv freshScene = some s1 ∧ s1.m_loadedTextures = 0) ∧
    (PrepareScene rgbEnv (SceneManager.new none 16 : SceneManager ℚ)).isNone = true := by
  refine ⟨⟨_, rfl, ?_, ?_, ?_, ?_⟩, ⟨_, rfl, ?_⟩, ?_⟩ <;> decide
